import Mathlib

/-!
# tinyows: `src/ows/ows_srs.c`

A shallow embedding of the spatial-reference-system resolver of tinyows and
theorems about it.

* A `buffer` (growable C string) is a `String`.
* The PostgreSQL connection `o->pg` is the content of the `spatial_ref_sys`
  table; the three `SELECT` statements the source builds are evaluated on
  that table by `PQexec_*`, and their result is a `PGresult` whose cells are
  text, as `PQgetvalue` returns them.
* `ows_srs_set` pastes the authority name between two quotes of its SQL text
  without escaping it. Only for a name without a quote or a backslash is the
  text the query by authority and code; for any other name the answer of the
  server to the text is the field `pg_other` of the context.
* A C function that writes through `ows_srs *` returns the new record next to
  its `bool` result.
* A C `int` is an `Int`; `atoi` wraps its result to 32 bits.
-/

namespace TinyOWS

/-! ## libc and the buffer / list utilities -/

/-- The C `int` obtained from an integer by two's complement wrap-around. -/
def wrap32 (z : Int) : Int := (z + 2147483648) % 4294967296 - 2147483648

/-- The `isspace` test of the C locale. -/
def isspace (c : Char) : Bool :=
  c == ' ' || c == '\t' || c == '\n' || c == '\x0b' || c == '\x0c' || c == '\r'

/-- The digit loop of `atoi`: accumulates decimal digits, stops at the first
character that is not one. -/
def atoi_digits : List Char → Nat → Nat
  | [], acc => acc
  | c :: cs, acc => if c.isDigit then atoi_digits cs (acc * 10 + (c.toNat - 48)) else acc

/-- The libc `atoi`: skips white space, reads an optional sign and then
decimal digits; text without a leading number gives 0. A value outside `int`
(undefined in C) is wrapped to 32 bits. -/
def atoi (s : String) : Int :=
  match s.data.dropWhile isspace with
  | '-' :: cs => wrap32 (-(atoi_digits cs 0 : Int))
  | '+' :: cs => wrap32 (atoi_digits cs 0 : Int)
  | cs => wrap32 (atoi_digits cs 0 : Int)

/-- The libc `strncmp`, as far as its callers look at it: 0 when the two
strings agree on their first `n` characters, and 1 otherwise. -/
def strncmp (s1 s2 : String) (n : Nat) : Int :=
  if s1.data.take n = s2.data.take n then 0 else 1

/-- The libc `strcmp`, as far as its callers look at it: 0 when the two
strings are equal, and 1 otherwise. -/
def strcmp (s1 s2 : String) : Int := if s1 = s2 then 0 else 1

/-- The decimal digits of a natural number, most significant first; `fuel`
bounds the number of digits. -/
def nat_digits : Nat → Nat → List Char
  | 0, _ => []
  | fuel + 1, n =>
    if n < 10 then [Char.ofNat (48 + n)]
    else nat_digits fuel (n / 10) ++ [Char.ofNat (48 + n % 10)]

/-- The decimal text of an integer, as `buffer_add_int` appends it and as
PostgreSQL prints an integer column. -/
def int_text (z : Int) : String :=
  match z with
  | Int.ofNat n => String.mk (nat_digits (n + 1) n)
  | Int.negSucc n => String.mk ('-' :: nat_digits (n + 2) (n + 1))

/-- Modelled from the spec: the growable-string utility `buffer_init` is not
part of the source file; a fresh buffer is empty. -/
def buffer_init : String := ""

/-- Modelled from the spec: the growable-string utility `buffer_empty` is not
part of the source file; it drops the content of the buffer. -/
def buffer_empty (_b : String) : String := ""

/-- Modelled from the spec: the growable-string utility `buffer_add_str` is
not part of the source file; it appends a C string to the buffer. -/
def buffer_add_str (b : String) (str : String) : String := b ++ str

/-- Modelled from the spec: the growable-string utility `buffer_copy` is not
part of the source file; it appends the content of `src` to `dest` (this is
how the source uses it to build its SQL text). -/
def buffer_copy (dest : String) (src : String) : String := dest ++ src

/-- The loop of `list_explode`: `buf` is the token being read and `l` the
tokens already closed. -/
def list_explode_loop (separator : Char) : List Char → String → List String → List String
  | [], buf, l => l ++ [buf]
  | c :: cs, buf, l =>
    if c = separator then list_explode_loop separator cs buffer_init (l ++ [buf])
    else list_explode_loop separator cs (buf.push c) l

/-- Modelled from the spec: the list utility `list_explode` is not part of the
source file; it splits a buffer on every occurrence of the separator into
the tokens between them, in order (so the result is never empty, and its
last token is the text after the last separator). -/
def list_explode (separator : Char) (value : String) : List String :=
  list_explode_loop separator value.data buffer_init []

/-! ## The data model -/

/-- The record `ows_srs`. -/
structure ows_srs where
  srid : Int
  auth_name : String
  auth_srid : Int
  is_degree : Bool
  is_reverse_axis : Bool
  deriving DecidableEq

/-- A row of the PostGIS table `spatial_ref_sys`, with the columns the source
reads. -/
structure spatial_ref_sys_row where
  srid : Int
  auth_name : String
  auth_srid : Int
  proj4text : String
  deriving DecidableEq

/-- A configured layer, with the two fields the source reads; either pointer
may be `NULL`. -/
structure ows_layer where
  name : Option String
  storage : Option ows_srs
  deriving DecidableEq

/-- The result status of a query (`ExecStatusType`), as far as the source
tells the values apart. -/
inductive ExecStatusType where
  | PGRES_TUPLES_OK
  | PGRES_FATAL_ERROR
  deriving DecidableEq

/-- A query result: its status and its rows of text cells. -/
structure PGresult where
  status : ExecStatusType
  tuples : List (List String)
  deriving DecidableEq

/-- The part of the `ows` context the source reads: the database behind
`o->pg`, as the content of `spatial_ref_sys`, and the layer list
`o->layers`. The field `pg_other` is the answer of the server behind `o->pg`
to an SQL text that is not one of the three queries of the source: the text
`ows_srs_set` builds from an authority name with a quote or a backslash. Where
it is not given, the server answers such a text with an error. -/
structure ows where
  pg : List spatial_ref_sys_row
  layers : List ows_layer
  pg_other : String → PGresult :=
    fun _ => { status := ExecStatusType.PGRES_FATAL_ERROR, tuples := [] }

/-- The libpq accessor `PQresultStatus`. -/
def PQresultStatus (res : PGresult) : ExecStatusType := res.status

/-- The libpq accessor `PQntuples`. -/
def PQntuples (res : PGresult) : Nat := res.tuples.length

/-- The libpq accessor `PQgetvalue`: the text of a cell (empty when there is
no such cell). -/
def PQgetvalue (res : PGresult) (tup_num field_num : Nat) : String :=
  (res.tuples.getD tup_num []).getD field_num ""

/-- The scan behind SQL `position`: `idx` is the 1-based position of the head
of the text that is still to be searched. -/
def position_from (sub : List Char) : List Char → Nat → Nat
  | [], idx => if sub.isPrefixOf [] then idx else 0
  | c :: cs, idx => if sub.isPrefixOf (c :: cs) then idx else position_from sub cs (idx + 1)

/-- SQL `position(sub in s)`: the 1-based position of the first occurrence of
`sub` in `s`, and 0 when there is none. -/
def position (sub s : String) : Nat := position_from sub.data s.data 1

/-- The rows selected by `WHERE auth_name='<auth_name>' AND auth_srid=<auth_srid>`,
in table order. -/
def select_by_auth (pg : List spatial_ref_sys_row) (auth_name : String) (auth_srid : Int) :
    List spatial_ref_sys_row :=
  pg.filter (fun r => r.auth_name = auth_name ∧ r.auth_srid = auth_srid)

/-- The rows selected by `WHERE srid = <srid>`, in table order. -/
def select_by_srid (pg : List spatial_ref_sys_row) (srid : Int) : List spatial_ref_sys_row :=
  pg.filter (fun r => r.srid = srid)

/-- Modelled from the spec: the growable-string utility `buffer_add_int` is
not part of the source file; it appends the decimal text of an `int`. -/
def buffer_add_int (b : String) (i : Int) : String := b ++ int_text i

/-- The SQL text `ows_srs_set` builds, with the authority name pasted between
two quotes as it is. -/
def sql_by_auth (auth_name : String) (auth_srid : Int) : String :=
  let sql := buffer_init
  let sql := buffer_add_str sql "SELECT srid, position('+units=m ' in proj4text) "
  let sql := buffer_add_str sql "FROM spatial_ref_sys "
  let sql := buffer_add_str sql "WHERE auth_name='"
  let sql := buffer_copy sql auth_name
  let sql := buffer_add_str sql "' AND auth_srid="
  buffer_add_int sql auth_srid

/-- A text that stands for itself between the quotes of an SQL string
literal: it holds no quote (character 39) and no backslash (character 92). -/
def sql_plain (s : String) : Bool :=
  s.data.all (fun c => c != Char.ofNat 39 && c != Char.ofNat 92)

/-- The query of `ows_srs_set`, `PQexec` on the text of `sql_by_auth`. For an
authority name without a quote or a backslash the text is
`SELECT srid, position('+units=m ' in proj4text) FROM spatial_ref_sys
 WHERE auth_name='<auth_name>' AND auth_srid=<auth_srid>`
and the result is that of this query on the table. For any other name the
pasted text ends or escapes the string literal, the statement is another one
(or none), and the result is the answer `pg_other` of the server to the text. -/
def PQexec_by_auth (o : ows) (auth_name : String) (auth_srid : Int) : PGresult :=
  if sql_plain auth_name then
    { status := ExecStatusType.PGRES_TUPLES_OK
      tuples := (select_by_auth o.pg auth_name auth_srid).map
        (fun r => [int_text r.srid, int_text (position "+units=m " r.proj4text)]) }
  else o.pg_other (sql_by_auth auth_name auth_srid)

/-- The query of `ows_srs_set_from_srid`:
`SELECT auth_name, auth_srid, position('+units=m ' in proj4text)
 FROM spatial_ref_sys WHERE srid = '<srid>'`. -/
def PQexec_by_srid (pg : List spatial_ref_sys_row) (srid : Int) : PGresult :=
  { status := ExecStatusType.PGRES_TUPLES_OK
    tuples := (select_by_srid pg srid).map
      (fun r => [r.auth_name, int_text r.auth_srid,
        int_text (position "+units=m " r.proj4text)]) }

/-- The query of `ows_srs_get_from_a_srid`:
`SELECT auth_name||':'||auth_srid AS srs FROM spatial_ref_sys WHERE srid=<srid>`. -/
def PQexec_srs (pg : List spatial_ref_sys_row) (srid : Int) : PGresult :=
  { status := ExecStatusType.PGRES_TUPLES_OK
    tuples := (select_by_srid pg srid).map
      (fun r => [r.auth_name ++ ":" ++ int_text r.auth_srid]) }

/-! ## The functions of `ows_srs.c` -/

/-- The function `ows_srs_init`. -/
def ows_srs_init : ows_srs :=
  { srid := -1
    auth_name := buffer_init
    auth_srid := 0
    is_degree := true
    is_reverse_axis := false }

/-- The function `ows_srs_set`. -/
def ows_srs_set (o : ows) (c : ows_srs) (auth_name : String) (auth_srid : Int) :
    Bool × ows_srs :=
  let res := PQexec_by_auth o auth_name auth_srid
  if PQresultStatus res ≠ ExecStatusType.PGRES_TUPLES_OK ∨ PQntuples res ≠ 1 then
    (false, c)
  else
    let c := { c with auth_name := buffer_empty c.auth_name }
    let c := { c with auth_name := buffer_copy c.auth_name auth_name }
    let c := { c with auth_srid := auth_srid }
    let c := { c with srid := atoi (PQgetvalue res 0 0) }
    if atoi (PQgetvalue res 0 1) = 0 then
      (true, { c with is_degree := true })
    else
      (true, { c with is_degree := false })

/-- The function `ows_srs_set_from_srid`. -/
def ows_srs_set_from_srid (o : ows) (s : ows_srs) (srid : Int) : Bool × ows_srs :=
  if srid = -1 then
    let s := { s with srid := -1 }
    let s := { s with auth_name := buffer_empty s.auth_name }
    let s := { s with auth_srid := 0 }
    let s := { s with is_degree := true }
    let s := { s with is_reverse_axis := false }
    (true, s)
  else
    let res := PQexec_by_srid o.pg srid
    if PQresultStatus res ≠ ExecStatusType.PGRES_TUPLES_OK ∨ PQntuples res ≠ 1 then
      (false, s)
    else
      let s := { s with auth_name := buffer_add_str s.auth_name (PQgetvalue res 0 0) }
      let s := { s with auth_srid := atoi (PQgetvalue res 0 1) }
      let s := { s with srid := srid }
      if atoi (PQgetvalue res 0 2) = 0 then
        (true, { s with is_degree := true })
      else
        (true, { s with is_degree := false })

/-- The tail of `ows_srs_set_from_srsname`, from `list_explode` on. -/
def ows_srs_set_from_srsname_tokens (o : ows) (s : ows_srs) (sep : Char) (srsname : String) :
    Bool × ows_srs :=
  let tokens := list_explode sep srsname
  match tokens.getLast? with
  | some value => ows_srs_set_from_srid o s (atoi value)
  | none => (false, s)

/-- The function `ows_srs_set_from_srsname`. -/
def ows_srs_set_from_srsname (o : ows) (s : ows_srs) (srsname : String) : Bool × ows_srs :=
  if strncmp srsname "EPSG:" 5 = 0 then
    ows_srs_set_from_srsname_tokens o { s with is_reverse_axis := false } ':' srsname
  else if strncmp srsname "urn:ogc:def:crs:EPSG:" 21 = 0
      ∨ strncmp srsname "urn:x-ogc:def:crs:EPSG:" 23 = 0
      ∨ strncmp srsname "urn:EPSG:geographicCRS:" 23 = 0 then
    ows_srs_set_from_srsname_tokens o { s with is_reverse_axis := true } ':' srsname
  else if strncmp srsname "http://www.opengis.net/gml/srs/epsg.xml#" 40 = 0 then
    ows_srs_set_from_srsname_tokens o { s with is_reverse_axis := false } '#' srsname
  else if strncmp srsname "http://www.epsg.org/" 20 = 0 then
    ows_srs_set_from_srsname_tokens o { s with is_reverse_axis := false } '/' srsname
  else (false, s)

/-- The loop of `ows_srs_meter_units` over the layer nodes; `none` is the
failed `assert(0)` after the loop. -/
def ows_srs_meter_units_loop (layer_name : String) : List ows_layer → Option Bool
  | [] => none
  | ln :: next =>
    match ln.name, ln.storage with
    | some name, some storage =>
      if strcmp name layer_name = 0 then some (!storage.is_degree)
      else ows_srs_meter_units_loop layer_name next
    | _, _ => ows_srs_meter_units_loop layer_name next

/-- The function `ows_srs_meter_units`; `none` is the failed `assert(0)`. -/
def ows_srs_meter_units (o : ows) (layer_name : String) : Option Bool :=
  ows_srs_meter_units_loop layer_name o.layers

/-- The function `ows_srs_get_from_a_srid`. -/
def ows_srs_get_from_a_srid (o : ows) (srid : Int) : String :=
  let res := PQexec_srs o.pg srid
  let b := buffer_init
  if PQresultStatus res ≠ ExecStatusType.PGRES_TUPLES_OK ∨ PQntuples res ≠ 1 then b
  else buffer_add_str b (PQgetvalue res 0 0)

/-- The loop of `ows_srs_get_srid_from_layer` over the layer nodes; -1 is the
`return` after the loop. -/
def ows_srs_get_srid_from_layer_loop (layer_name : String) : List ows_layer → Int
  | [] => -1
  | ln :: next =>
    match ln.name, ln.storage with
    | some name, some storage =>
      if strcmp name layer_name = 0 then storage.srid
      else ows_srs_get_srid_from_layer_loop layer_name next
    | _, _ => ows_srs_get_srid_from_layer_loop layer_name next

/-- The function `ows_srs_get_srid_from_layer`. -/
def ows_srs_get_srid_from_layer (o : ows) (layer_name : String) : Int :=
  ows_srs_get_srid_from_layer_loop layer_name o.layers

/-- Modelled from the spec: the list utility `list_init` is not part of the
source file; a fresh list is empty. -/
def list_init : List String := []

/-- Modelled from the spec: the list utility `list_add` is not part of the
source file; it adds a buffer at the end of the list. -/
def list_add (l : List String) (value : String) : List String := l ++ [value]

/-- The loop of `ows_srs_get_from_srid` over the nodes of the identifier list;
`srs` is the list built so far. -/
def ows_srs_get_from_srid_loop (o : ows) : List String → List String → List String
  | [], srs => srs
  | value :: next, srs =>
    let b := ows_srs_get_from_a_srid o (atoi value)
    ows_srs_get_from_srid_loop o next (list_add srs b)

/-- The function `ows_srs_get_from_srid`; `l->size` is the length of the list. -/
def ows_srs_get_from_srid (o : ows) (l : List String) : List String :=
  let srs := list_init
  if l.length = 0 then srs
  else ows_srs_get_from_srid_loop o l srs

/-! ## Notions of the specification -/

/-- Values of the C type `int` and of the SQL type `integer`. -/
def int4 (z : Int) : Prop := -2147483648 ≤ z ∧ z ≤ 2147483647

instance (z : Int) : Decidable (int4 z) := by unfold int4; infer_instance

/-- A table whose `srid` and `auth_srid` columns hold SQL integers and whose
`proj4text` is short enough for `position` to be an SQL integer. -/
def spatial_ref_sys_typed (pg : List spatial_ref_sys_row) : Prop :=
  ∀ r ∈ pg, int4 r.srid ∧ int4 r.auth_srid ∧ r.proj4text.length < 2147483647

instance (pg : List spatial_ref_sys_row) : Decidable (spatial_ref_sys_typed pg) := by
  unfold spatial_ref_sys_typed; infer_instance

/-- The recognized-syntax table of the specification: the leading text of the
name, the separator before the code, and the reverse-axis policy. -/
def recognized_forms : List (String × Char × Bool) :=
  [ ("EPSG:", ':', false),
    ("urn:ogc:def:crs:EPSG:", ':', true),
    ("urn:x-ogc:def:crs:EPSG:", ':', true),
    ("urn:EPSG:geographicCRS:", ':', true),
    ("http://www.opengis.net/gml/srs/epsg.xml#", '#', false),
    ("http://www.epsg.org/", '/', false) ]

/-- The number a string of decimal digits denotes. -/
def decimal_value (ds : String) : Nat :=
  Nat.ofDigits 10 (ds.data.reverse.map (fun c => c.toNat - 48))

/-- The marker the queries look for in `proj4text`. -/
def units_marker : String := "+units=m "

/-- The reference table of the scenarios of the specification, with one more
row whose marker is not at the start of the text. -/
def scenario_table : ows :=
  { pg :=
      [ { srid := 4326, auth_name := "EPSG", auth_srid := 4326,
          proj4text := "+proj=longlat +datum=WGS84 +no_defs" },
        { srid := 2154, auth_name := "EPSG", auth_srid := 2154,
          proj4text := "+units=m +proj=lcc" },
        { srid := 32631, auth_name := "EPSG", auth_srid := 32631,
          proj4text := "+proj=utm +zone=31 +datum=WGS84 +units=m +no_defs" } ]
    layers := [] }

/-- A record as an earlier successful resolve of `EPSG:4326` leaves it. -/
def resolved_4326 : ows_srs :=
  { srid := 4326, auth_name := "EPSG", auth_srid := 4326, is_degree := true,
    is_reverse_axis := false }

/-- A table in which two rows carry the same identifier and the same authority
and code. -/
def duplicate_table : ows :=
  { pg :=
      [ { srid := 4326, auth_name := "EPSG", auth_srid := 4326,
          proj4text := "+proj=longlat +datum=WGS84 +no_defs" },
        { srid := 4326, auth_name := "EPSG", auth_srid := 4326,
          proj4text := "+proj=longlat +ellps=WGS84 +no_defs" } ]
    layers := [] }

/-- A table whose row of identifier 900913 is named by another authority than
EPSG. -/
def foreign_table : ows :=
  { pg :=
      [ { srid := 900913, auth_name := "spatialreferencing.org", auth_srid := 6,
          proj4text := "+proj=merc +a=6378137 +b=6378137 +units=m +no_defs" } ]
    layers := [] }

/-- The context `o` with one more layer, of the given name and record, at the
head of its layer list. -/
def with_layer (o : ows) (name : String) (c : ows_srs) : ows :=
  { o with layers := { name := some name, storage := some c } :: o.layers }

/-- The SRS record of the first layer, in registry order, that has the given
name and carries a record. -/
def first_layer_srs (o : ows) (layer_name : String) : Option ows_srs :=
  (o.layers.find? (fun ln => ln.name = some layer_name ∧ ln.storage.isSome)).bind
    (fun ln => ln.storage)

/-- A call of one of the three resolvers of a record, with its arguments. -/
inductive srs_call where
  | set (auth_name : String) (auth_srid : Int)
  | set_from_srid (srid : Int)
  | set_from_srsname (srsname : String)
  deriving DecidableEq

/-- The record a resolver call leaves, whether the call succeeds or fails. -/
def run_call (o : ows) (c : ows_srs) : srs_call → ows_srs
  | srs_call.set auth_name auth_srid => (ows_srs_set o c auth_name auth_srid).2
  | srs_call.set_from_srid srid => (ows_srs_set_from_srid o c srid).2
  | srs_call.set_from_srsname srsname => (ows_srs_set_from_srsname o c srsname).2

/-- The record a sequence of resolver calls leaves, first call first. -/
def run_calls (o : ows) (c : ows_srs) : List srs_call → ows_srs
  | [] => c
  | call :: calls => run_calls o (run_call o c call) calls

/-- The invariant of the data model: an unset identifier comes with an empty
authority name. -/
def unset_has_no_name (c : ows_srs) : Prop := c.srid = -1 → c.auth_name = ""

instance (c : ows_srs) : Decidable (unset_has_no_name c) := by
  unfold unset_has_no_name; infer_instance

/-- A table that keeps -1 for the unset identifier: no row has `srid` -1. -/
def no_unset_row (pg : List spatial_ref_sys_row) : Prop := ∀ r ∈ pg, r.srid ≠ -1

instance (pg : List spatial_ref_sys_row) : Decidable (no_unset_row pg) := by
  unfold no_unset_row; infer_instance

/-- A resolver call whose SQL text is the query it stands for: the authority
name of an `ows_srs_set` call holds no quote and no backslash. The other two
resolvers paste numbers only. -/
def plain_call : srs_call → Prop
  | srs_call.set auth_name _ => sql_plain auth_name = true
  | srs_call.set_from_srid _ => True
  | srs_call.set_from_srsname _ => True

instance (call : srs_call) : Decidable (plain_call call) := by
  cases call <;> unfold plain_call <;> infer_instance

/-- A table whose one row is named by an authority with a quote in its name.
The text `ows_srs_set` builds from that name,
`... WHERE auth_name='O'Neil' AND auth_srid=7`, is no SQL statement: the
server answers it with an error. -/
def quoted_name_table : ows :=
  { pg :=
      [ { srid := 7, auth_name := "O'Neil", auth_srid := 7,
          proj4text := "+proj=longlat +datum=WGS84 +no_defs" } ]
    layers := []
    pg_other := fun _ => { status := ExecStatusType.PGRES_FATAL_ERROR, tuples := [] } }

/-- An authority name that ends the string literal of the query and adds a
`UNION` branch; the rest of the text of `ows_srs_set` is left in an SQL
comment. -/
def union_name : String := "' UNION SELECT -1, 0 --"

/-- The scenario table behind a server that runs the text `ows_srs_set` builds
from `union_name` and code 4326,
`... WHERE auth_name='' UNION SELECT -1, 0 --' AND auth_srid=4326`:
no row of the table has an empty authority name, so the result is the one
row (-1, 0) of the `UNION` branch. Any other such text is answered with an
error. -/
def union_server : ows :=
  { pg := scenario_table.pg
    layers := []
    pg_other := fun sql =>
      if sql = sql_by_auth union_name 4326 then
        { status := ExecStatusType.PGRES_TUPLES_OK, tuples := [["-1", "0"]] }
      else { status := ExecStatusType.PGRES_FATAL_ERROR, tuples := [] } }

/-- A registry of five layers: one without an SRS record, two of the same
name with records, and one whose record is unset. -/
def scenario_layers : ows :=
  { pg := []
    layers :=
      [ { name := some "roads", storage := none },
        { name := some "roads",
          storage := some { srid := 2154, auth_name := "EPSG", auth_srid := 2154,
                            is_degree := false, is_reverse_axis := false } },
        { name := some "rivers", storage := some resolved_4326 },
        { name := some "roads", storage := some resolved_4326 },
        { name := some "native", storage := some ows_srs_init } ] }

/-! ## Lemmas on the utilities -/

theorem wrap32_of_int4 {z : Int} (h : int4 z) : wrap32 z = z := by
  unfold int4 at h
  unfold wrap32
  omega

theorem isDigit_ofNat {d : Nat} (h : d < 10) :
    (Char.ofNat (48 + d)).isDigit = true ∧ (Char.ofNat (48 + d)).toNat - 48 = d := by
  interval_cases d <;> decide

theorem isspace_of_isDigit {c : Char} (h : c.isDigit = true) : isspace c = false := by
  cases hs : isspace c with
  | false => rfl
  | true =>
    simp only [isspace, Bool.or_eq_true, beq_iff_eq] at hs
    rcases hs with ((((hs | hs) | hs) | hs) | hs) | hs <;> subst hs <;> exact absurd h (by decide)

theorem atoi_digits_snoc (l : List Char) (hl : ∀ c ∈ l, c.isDigit = true) (c : Char)
    (hc : c.isDigit = true) (acc : Nat) :
    atoi_digits (l ++ [c]) acc = atoi_digits l acc * 10 + (c.toNat - 48) := by
  induction l generalizing acc with
  | nil => simp [atoi_digits, hc]
  | cons a l ih =>
    have ha : a.isDigit = true := hl a (List.mem_cons_self _ _)
    simp only [List.cons_append, atoi_digits, ha, if_true]
    exact ih (fun x hx => hl x (List.mem_cons_of_mem _ hx)) _

theorem nat_digits_isDigit (fuel n : Nat) : ∀ c ∈ nat_digits fuel n, c.isDigit = true := by
  induction fuel generalizing n with
  | zero => intro c hc; simp [nat_digits] at hc
  | succ fuel ih =>
    intro c hc
    unfold nat_digits at hc
    split at hc
    · rename_i hlt
      simp only [List.mem_singleton] at hc
      subst hc
      exact (isDigit_ofNat hlt).1
    · rcases List.mem_append.1 hc with h | h
      · exact ih _ c h
      · simp only [List.mem_singleton] at h
        subst h
        exact (isDigit_ofNat (Nat.mod_lt _ (by decide))).1

theorem atoi_digits_nat_digits (fuel n : Nat) (h : n < fuel) :
    atoi_digits (nat_digits fuel n) 0 = n := by
  induction fuel generalizing n with
  | zero => omega
  | succ fuel ih =>
    unfold nat_digits
    split
    · rename_i hlt
      simp [atoi_digits, (isDigit_ofNat hlt).1, (isDigit_ofNat hlt).2]
    · rename_i hge
      rw [atoi_digits_snoc _ (nat_digits_isDigit _ _) _ (isDigit_ofNat (Nat.mod_lt _ (by decide))).1,
        ih (n / 10) (by omega), (isDigit_ofNat (Nat.mod_lt _ (by decide))).2]
      omega

theorem atoi_of_digit_head (s : String) (c : Char) (cs : List Char) (hs : s.data = c :: cs)
    (hc : c.isDigit = true) : atoi s = wrap32 (atoi_digits (c :: cs) 0 : Int) := by
  unfold atoi
  rw [hs, List.dropWhile_cons, isspace_of_isDigit hc]
  simp only [Bool.false_eq_true, if_false]
  split
  · rename_i heq
    cases heq
    exact absurd hc (by decide)
  · rename_i heq
    cases heq
    exact absurd hc (by decide)
  · rfl

theorem atoi_of_minus (s : String) (cs : List Char) (hs : s.data = '-' :: cs) :
    atoi s = wrap32 (-(atoi_digits cs 0 : Int)) := by
  unfold atoi
  rw [hs, List.dropWhile_cons]
  rfl

theorem nat_digits_ne_nil (fuel n : Nat) : nat_digits (fuel + 1) n ≠ [] := by
  unfold nat_digits
  split <;> simp

theorem atoi_nat_digits (fuel n : Nat) (h : n < fuel) :
    atoi (String.mk (nat_digits fuel n)) = wrap32 (n : Int) := by
  cases fuel with
  | zero => omega
  | succ fuel =>
    cases hd : nat_digits (fuel + 1) n with
    | nil => exact absurd hd (nat_digits_ne_nil fuel n)
    | cons c cs =>
      have hc : c.isDigit = true :=
        nat_digits_isDigit (fuel + 1) n c (by rw [hd]; exact List.mem_cons_self _ _)
      rw [atoi_of_digit_head _ c cs rfl hc, ← hd, atoi_digits_nat_digits _ _ h]

/-- Reading back the decimal text of a C `int` with `atoi` gives the `int`. -/
theorem atoi_int_text (z : Int) (h : int4 z) : atoi (int_text z) = z := by
  cases z with
  | ofNat n =>
    show atoi (String.mk (nat_digits (n + 1) n)) = _
    rw [atoi_nat_digits _ _ (Nat.lt_succ_self n)]
    exact wrap32_of_int4 h
  | negSucc n =>
    show atoi (String.mk ('-' :: nat_digits (n + 2) (n + 1))) = _
    rw [atoi_of_minus _ _ rfl, atoi_digits_nat_digits _ _ (Nat.lt_succ_self _)]
    have : (-((n + 1 : Nat) : Int)) = Int.negSucc n := by
      rw [Int.negSucc_eq]; push_cast; ring
    rw [this]
    exact wrap32_of_int4 h

/-- A text without the separator is one token. -/
theorem list_explode_loop_no_sep (sep : Char) (v : List Char) (hv : sep ∉ v) (buf : String)
    (l : List String) :
    list_explode_loop sep v buf l = l ++ [String.mk (buf.data ++ v)] := by
  induction v generalizing buf with
  | nil => simp [list_explode_loop]
  | cons c cs ih =>
    have hc : c ≠ sep := fun h => hv (h ▸ List.mem_cons_self _ _)
    have hcs : sep ∉ cs := fun h => hv (List.mem_cons_of_mem _ h)
    simp only [list_explode_loop, hc, if_false]
    rw [ih hcs]
    simp [String.push]

theorem list_explode_loop_sep (sep : Char) (pre ds : List Char) (buf : String)
    (l : List String) :
    ∃ l', list_explode_loop sep (pre ++ sep :: ds) buf l
      = list_explode_loop sep ds buffer_init l' := by
  induction pre generalizing buf l with
  | nil => exact ⟨l ++ [buf], by simp [list_explode_loop]⟩
  | cons c cs ih =>
    simp only [List.cons_append, list_explode_loop]
    split
    · exact ih _ _
    · exact ih _ _

/-- The last token of `list_explode` is the text after the last separator. -/
theorem list_explode_getLast (sep : Char) (value : String) (pre ds : List Char)
    (hv : value.data = pre ++ sep :: ds) (hds : sep ∉ ds) :
    (list_explode sep value).getLast? = some (String.mk ds) := by
  unfold list_explode
  rw [hv]
  obtain ⟨l', hl'⟩ := list_explode_loop_sep sep pre ds buffer_init []
  rw [hl', list_explode_loop_no_sep sep ds hds, List.getLast?_concat]
  simp [buffer_init]

theorem position_from_eq_zero (sub : List Char) (s : List Char) (idx : Nat) (hidx : 0 < idx) :
    position_from sub s idx = 0 ↔ ¬ sub <:+: s := by
  induction s generalizing idx with
  | nil =>
    simp only [position_from, List.isPrefixOf_iff_prefix, List.prefix_nil, List.infix_nil]
    split <;> simp_all
    omega
  | cons c cs ih =>
    simp only [position_from, List.isPrefixOf_iff_prefix, List.infix_cons_iff]
    split
    · rename_i h
      simp [h]; omega
    · rename_i h
      rw [ih (idx + 1) (by omega)]
      simp [h]

theorem position_from_le (sub : List Char) (s : List Char) (idx : Nat) :
    position_from sub s idx ≤ idx + s.length := by
  induction s generalizing idx with
  | nil => simp only [position_from]; split <;> simp
  | cons c cs ih =>
    simp only [position_from, List.length_cons]
    split
    · omega
    · have := ih (idx + 1); omega

theorem filter_length_one {α : Type} (p : α → Bool) (l : List α) (h : (l.filter p).length = 1) :
    ∃ r, l.filter p = [r] ∧ r ∈ l ∧ p r = true := by
  match hf : l.filter p, h with
  | [r], _ =>
    have hr : r ∈ l.filter p := by rw [hf]; exact List.mem_singleton_self r
    exact ⟨r, rfl, (List.mem_filter.1 hr).1, (List.mem_filter.1 hr).2⟩

/-- On a string of digits the loop of `atoi` computes the number it denotes. -/
theorem atoi_digits_eq_decimal_value (l : List Char) (hl : ∀ c ∈ l, c.isDigit = true) :
    atoi_digits l 0 = decimal_value (String.mk l) := by
  induction l using List.reverseRecOn with
  | nil => rfl
  | append_singleton l c ih =>
    have hc : c.isDigit = true := hl c (by simp)
    have hl' : ∀ x ∈ l, x.isDigit = true := fun x hx => hl x (by simp [hx])
    rw [atoi_digits_snoc l hl' c hc, ih hl']
    simp only [decimal_value, List.reverse_append, List.reverse_cons, List.reverse_nil,
      List.nil_append, List.singleton_append, List.map_cons, Nat.ofDigits_cons]
    ring

/-- The function `atoi` on a non-empty string of digits whose number is an `int`. -/
theorem atoi_of_digits (ds : String) (hne : ds ≠ "") (hds : ∀ c ∈ ds.data, c.isDigit = true)
    (hval : decimal_value ds ≤ 2147483647) : atoi ds = (decimal_value ds : Int) := by
  cases hd : ds.data with
  | nil => exact absurd (String.ext hd) hne
  | cons c cs =>
    have hc : c.isDigit = true := hds c (by rw [hd]; exact List.mem_cons_self _ _)
    rw [atoi_of_digit_head ds c cs hd hc, ← hd, atoi_digits_eq_decimal_value _ hds]
    exact wrap32_of_int4 ⟨by omega, by exact_mod_cast hval⟩

theorem strncmp_eq_zero_of_append (name p : String) (t : List Char) (n : Nat)
    (h : name.data = p.data ++ t) (hn : p.data.length = n) : strncmp name p n = 0 := by
  unfold strncmp
  rw [h, List.take_left' hn, List.take_of_length_le (le_of_eq hn)]
  simp

theorem strncmp_ne_zero_of_append (name p q : String) (t : List Char) (k n : Nat)
    (h : name.data = p.data ++ t) (hk : k ≤ n) (hkp : k ≤ p.data.length)
    (hd : p.data.take k ≠ q.data.take k) : strncmp name q n ≠ 0 := by
  unfold strncmp
  rw [h]
  split
  · rename_i heq
    exfalso
    apply hd
    have := congrArg (List.take k) heq
    rw [List.take_take, List.take_take, Nat.min_eq_left hk,
      List.take_append_of_le_length hkp] at this
    exact this
  · decide

/-- The cascade of `strncmp` tests picks the separator and the axis order of
the table entry the name starts with. -/
theorem ows_srs_set_from_srsname_branch (o : ows) (s : ows_srs) (p : String) (sep : Char)
    (rev : Bool) (name : String) (t : List Char)
    (hp : (p, sep, rev) ∈ recognized_forms) (hname : name.data = p.data ++ t) :
    ows_srs_set_from_srsname o s name
      = ows_srs_set_from_srsname_tokens o { s with is_reverse_axis := rev } sep name := by
  simp only [recognized_forms, List.mem_cons, List.mem_singleton, List.not_mem_nil,
    or_false] at hp
  unfold ows_srs_set_from_srsname
  rcases hp with h | h | h | h | h | h <;> cases h
  · rw [if_pos (strncmp_eq_zero_of_append _ _ t 5 hname (by decide))]
  · rw [if_neg (strncmp_ne_zero_of_append _ _ _ t 1 5 hname (by decide) (by decide) (by decide)),
      if_pos (Or.inl (strncmp_eq_zero_of_append _ _ t 21 hname (by decide)))]
  · rw [if_neg (strncmp_ne_zero_of_append _ _ _ t 1 5 hname (by decide) (by decide) (by decide)),
      if_pos (Or.inr (Or.inl (strncmp_eq_zero_of_append _ _ t 23 hname (by decide))))]
  · rw [if_neg (strncmp_ne_zero_of_append _ _ _ t 1 5 hname (by decide) (by decide) (by decide)),
      if_pos (Or.inr (Or.inr (strncmp_eq_zero_of_append _ _ t 23 hname (by decide))))]
  · rw [if_neg (strncmp_ne_zero_of_append _ _ _ t 1 5 hname (by decide) (by decide) (by decide)),
      if_neg (by
        intro h
        rcases h with h | h | h
        · exact strncmp_ne_zero_of_append _ _ _ t 1 21 hname (by decide) (by decide) (by decide) h
        · exact strncmp_ne_zero_of_append _ _ _ t 1 23 hname (by decide) (by decide) (by decide) h
        · exact strncmp_ne_zero_of_append _ _ _ t 1 23 hname (by decide) (by decide) (by decide) h),
      if_pos (strncmp_eq_zero_of_append _ _ t 40 hname (by decide))]
  · rw [if_neg (strncmp_ne_zero_of_append _ _ _ t 1 5 hname (by decide) (by decide) (by decide)),
      if_neg (by
        intro h
        rcases h with h | h | h
        · exact strncmp_ne_zero_of_append _ _ _ t 1 21 hname (by decide) (by decide) (by decide) h
        · exact strncmp_ne_zero_of_append _ _ _ t 1 23 hname (by decide) (by decide) (by decide) h
        · exact strncmp_ne_zero_of_append _ _ _ t 1 23 hname (by decide) (by decide) (by decide) h),
      if_neg (strncmp_ne_zero_of_append _ _ _ t 12 40 hname (by decide) (by decide) (by decide)),
      if_pos (strncmp_eq_zero_of_append _ _ t 20 hname (by decide))]

/-- Every entry of the recognized-syntax table ends with its separator, and no
separator is a digit. -/
theorem recognized_forms_sep (p : String) (sep : Char) (rev : Bool)
    (hp : (p, sep, rev) ∈ recognized_forms) :
    p.data.getLast? = some sep ∧ sep.isDigit = false := by
  have hall : ∀ e ∈ recognized_forms, e.1.data.getLast? = some e.2.1 ∧ e.2.1.isDigit = false := by
    decide
  exact hall (p, sep, rev) hp

/-- A name that is a table entry, any text that is empty or ends with the
separator, and a string of digits: the tail of `ows_srs_set_from_srsname`
resolves the number of the digits. -/
theorem ows_srs_set_from_srsname_tokens_digits (o : ows) (s : ows_srs) (p : String)
    (sep : Char) (rev : Bool) (mid ds : String)
    (hp : (p, sep, rev) ∈ recognized_forms)
    (hmid : mid = "" ∨ mid.data.getLast? = some sep)
    (hne : ds ≠ "") (hds : ∀ c ∈ ds.data, c.isDigit = true)
    (hval : decimal_value ds ≤ 2147483647) :
    ows_srs_set_from_srsname_tokens o s sep (p ++ mid ++ ds)
      = ows_srs_set_from_srid o s (decimal_value ds) := by
  obtain ⟨hlast, hsep⟩ := recognized_forms_sep p sep rev hp
  have hlast' : (p.data ++ mid.data).getLast? = some sep := by
    rcases hmid with h | h
    · subst h
      simpa using hlast
    · rw [List.getLast?_append, h]
      rfl
  obtain ⟨pre, hpre⟩ := List.getLast?_eq_some_iff.1 hlast'
  have hnot : sep ∉ ds.data := by
    intro h
    have := hds sep h
    rw [hsep] at this
    cases this
  have hdata : (p ++ mid ++ ds).data = pre ++ sep :: ds.data := by
    simp only [String.data_append, hpre, List.append_assoc, List.singleton_append]
  unfold ows_srs_set_from_srsname_tokens
  simp only [list_explode_getLast sep _ pre ds.data hdata hnot]
  rw [atoi_of_digits ds hne hds hval]

/-! ## Lemmas on the resolvers -/

/-- The units cell of a row reads back as 0 exactly when the text has no marker. -/
theorem atoi_position_eq_zero (text : String) (hlen : text.length < 2147483647) :
    atoi (int_text (position "+units=m " text)) = 0 ↔ ¬ units_marker.data <:+: text.data := by
  have hle := position_from_le "+units=m ".data text.data 1
  have hlen' : text.data.length < 2147483647 := hlen
  rw [atoi_int_text _ ⟨by omega, by unfold position; omega⟩]
  rw [show units_marker = "+units=m " from rfl,
    ← position_from_eq_zero "+units=m ".data text.data 1 (by decide)]
  unfold position
  exact Int.natCast_eq_zero

theorem mem_of_select_by_auth {pg : List spatial_ref_sys_row} {auth_name : String}
    {auth_srid : Int} {r : spatial_ref_sys_row}
    (h : r ∈ select_by_auth pg auth_name auth_srid) :
    r ∈ pg ∧ r.auth_name = auth_name ∧ r.auth_srid = auth_srid := by
  unfold select_by_auth at h
  have := List.mem_filter.1 h
  simpa using this

theorem mem_of_select_by_srid {pg : List spatial_ref_sys_row} {srid : Int}
    {r : spatial_ref_sys_row} (h : r ∈ select_by_srid pg srid) : r ∈ pg ∧ r.srid = srid := by
  unfold select_by_srid at h
  have := List.mem_filter.1 h
  simpa using this

/-- The record `ows_srs_set` leaves when its query, for an authority name
without a quote or a backslash, selects one row. -/
theorem ows_srs_set_of_single (o : ows) (c : ows_srs) (auth_name : String) (auth_srid : Int)
    (r : spatial_ref_sys_row) (ht : spatial_ref_sys_typed o.pg)
    (hplain : sql_plain auth_name = true)
    (h : select_by_auth o.pg auth_name auth_srid = [r]) :
    ows_srs_set o c auth_name auth_srid
      = (true, { srid := r.srid, auth_name := auth_name, auth_srid := auth_srid,
                 is_degree := !decide (units_marker.data <:+: r.proj4text.data),
                 is_reverse_axis := c.is_reverse_axis }) := by
  have hr := (mem_of_select_by_auth (h ▸ List.mem_singleton_self r)).1
  obtain ⟨h1, _, h3⟩ := ht r hr
  have hz := atoi_position_eq_zero r.proj4text h3
  simp only [ows_srs_set, PQexec_by_auth, hplain, if_true, PQresultStatus, PQntuples,
    PQgetvalue, h, List.map_cons, List.map_nil, List.length_singleton, ne_eq, not_true_eq_false, or_self,
    if_false, List.getD_cons_zero, List.getD_cons_succ, atoi_int_text _ h1, buffer_copy,
    buffer_empty]
  by_cases hm : units_marker.data <:+: r.proj4text.data
  · rw [if_neg (fun h0 => hz.1 h0 hm)]
    simp [hm]
  · rw [if_pos (hz.2 hm)]
    simp [hm]

/-- The record `ows_srs_set_from_srid` leaves when its query selects one row. -/
theorem ows_srs_set_from_srid_of_single (o : ows) (s : ows_srs) (srid : Int)
    (r : spatial_ref_sys_row) (ht : spatial_ref_sys_typed o.pg) (hsrid : srid ≠ -1)
    (h : select_by_srid o.pg srid = [r]) :
    ows_srs_set_from_srid o s srid
      = (true, { srid := srid, auth_name := s.auth_name ++ r.auth_name,
                 auth_srid := r.auth_srid,
                 is_degree := !decide (units_marker.data <:+: r.proj4text.data),
                 is_reverse_axis := s.is_reverse_axis }) := by
  have hr := (mem_of_select_by_srid (h ▸ List.mem_singleton_self r)).1
  obtain ⟨_, h2, h3⟩ := ht r hr
  have hz := atoi_position_eq_zero r.proj4text h3
  simp only [ows_srs_set_from_srid, hsrid, if_false, PQexec_by_srid, PQresultStatus, PQntuples,
    PQgetvalue, h, List.map_cons, List.map_nil, List.length_singleton, ne_eq,
    not_true_eq_false, or_self, List.getD_cons_zero, List.getD_cons_succ,
    atoi_int_text _ h2, buffer_add_str]
  by_cases hm : units_marker.data <:+: r.proj4text.data
  · rw [if_neg (fun h0 => hz.1 h0 hm)]
    simp [hm]
  · rw [if_pos (hz.2 hm)]
    simp [hm]

/-- A result of the query of `ows_srs_set` that is not exactly one row, or
not a result at all, for every authority name. -/
theorem ows_srs_set_of_result_not_single (o : ows) (c : ows_srs) (auth_name : String)
    (auth_srid : Int)
    (h : PQresultStatus (PQexec_by_auth o auth_name auth_srid) ≠ ExecStatusType.PGRES_TUPLES_OK
      ∨ PQntuples (PQexec_by_auth o auth_name auth_srid) ≠ 1) :
    ows_srs_set o c auth_name auth_srid = (false, c) := by
  unfold ows_srs_set
  simp only []
  rw [if_pos h]

/-- A query of `ows_srs_set`, for an authority name without a quote or a
backslash, that does not select exactly one row. -/
theorem ows_srs_set_of_not_single (o : ows) (c : ows_srs) (auth_name : String)
    (auth_srid : Int) (hplain : sql_plain auth_name = true)
    (h : (select_by_auth o.pg auth_name auth_srid).length ≠ 1) :
    ows_srs_set o c auth_name auth_srid = (false, c) := by
  simp [ows_srs_set, PQexec_by_auth, hplain, PQresultStatus, PQntuples, h]

/-- A query of `ows_srs_set_from_srid` that does not select exactly one row. -/
theorem ows_srs_set_from_srid_of_not_single (o : ows) (s : ows_srs) (srid : Int)
    (hsrid : srid ≠ -1) (h : (select_by_srid o.pg srid).length ≠ 1) :
    ows_srs_set_from_srid o s srid = (false, s) := by
  simp [ows_srs_set_from_srid, hsrid, PQexec_by_srid, PQresultStatus, PQntuples, h]

/-- A failing `ows_srs_set_from_srid` returns the record it was given. -/
theorem ows_srs_set_from_srid_false (o : ows) (s : ows_srs) (srid : Int)
    (h : (ows_srs_set_from_srid o s srid).1 = false) : (ows_srs_set_from_srid o s srid).2 = s := by
  by_cases h1 : srid = -1
  · simp [ows_srs_set_from_srid, h1] at h
  · by_cases h2 : (select_by_srid o.pg srid).length ≠ 1
    · rw [ows_srs_set_from_srid_of_not_single o s srid h1 h2]
    · exfalso
      have h3 : (select_by_srid o.pg srid).length = 1 := not_not.1 h2
      simp only [ows_srs_set_from_srid, h1, if_false, PQexec_by_srid, PQresultStatus,
        PQntuples, List.length_map, h3, ne_eq, not_true_eq_false, or_self] at h
      split at h <;> simp at h

/-- The units query on a registry whose first layer has the asked name. -/
theorem ows_srs_meter_units_with_layer (o : ows) (name : String) (c : ows_srs) :
    ows_srs_meter_units (with_layer o name c) name = some (!c.is_degree) := by
  simp [ows_srs_meter_units, ows_srs_meter_units_loop, with_layer, strcmp]

/-- In a table keyed by `srid`, the identifier of a row selects that row only. -/
theorem select_by_srid_of_key (pg : List spatial_ref_sys_row)
    (hkey : (pg.map (fun r => r.srid)).Nodup) (r : spatial_ref_sys_row) (hr : r ∈ pg) :
    select_by_srid pg r.srid = [r] := by
  unfold select_by_srid
  induction pg with
  | nil => cases hr
  | cons a l ih =>
    rw [List.map_cons, List.nodup_cons] at hkey
    have hnone : ∀ x ∈ l, x.srid = a.srid → False := fun x hx hxa =>
      hkey.1 (List.mem_map.2 ⟨x, hx, hxa⟩)
    rcases List.mem_cons.1 hr with h | h
    · subst h
      rw [List.filter_cons_of_pos (by simp)]
      congr 1
      rw [List.filter_eq_nil_iff]
      intro x hx
      simpa using hnone x hx
    · have hne : ¬ a.srid = r.srid := fun e => hnone r h e.symm
      rw [List.filter_cons_of_neg (by simpa using hne)]
      exact ih hkey.2 h

/-! ## Lemmas on the name parser, the call sequences and the layer scans -/

/-- A zero `strncmp` against a text of `n` characters: the name starts with it. -/
theorem pfx_of_strncmp_eq_zero (name p : String) (n : Nat) (hn : p.data.length = n)
    (h : strncmp name p n = 0) : p.data <+: name.data := by
  unfold strncmp at h
  split at h
  · rename_i heq
    rw [List.take_of_length_le (le_of_eq hn)] at heq
    rw [← heq]
    exact List.take_prefix n name.data
  · cases h

/-- The list `list_explode` builds always has a last token. -/
theorem list_explode_loop_ne_nil (sep : Char) (v : List Char) (buf : String)
    (l : List String) : list_explode_loop sep v buf l ≠ [] := by
  induction v generalizing buf l with
  | nil => simp [list_explode_loop]
  | cons c cs ih =>
    simp only [list_explode_loop]
    split
    · exact ih _ _
    · exact ih _ _

/-- The tail of `ows_srs_set_from_srsname` always reaches `ows_srs_set_from_srid`. -/
theorem ows_srs_set_from_srsname_tokens_shape (o : ows) (s : ows_srs) (sep : Char)
    (srsname : String) :
    ∃ srid, ows_srs_set_from_srsname_tokens o s sep srsname
      = ows_srs_set_from_srid o s srid := by
  unfold ows_srs_set_from_srsname_tokens
  cases hg : (list_explode sep srsname).getLast? with
  | none =>
    exact absurd (List.getLast?_eq_none_iff.1 hg) (list_explode_loop_ne_nil sep _ _ _)
  | some value => exact ⟨atoi value, by simp only [hg]⟩

/-- The two shapes of the result of `ows_srs_set_from_srsname`: the record
untouched, or `ows_srs_set_from_srid` on the record with the axis flag written. -/
theorem ows_srs_set_from_srsname_shape (o : ows) (s : ows_srs) (srsname : String) :
    ows_srs_set_from_srsname o s srsname = (false, s)
    ∨ ∃ rev srid, ows_srs_set_from_srsname o s srsname
        = ows_srs_set_from_srid o { s with is_reverse_axis := rev } srid := by
  unfold ows_srs_set_from_srsname
  split
  · obtain ⟨n, hn⟩ := ows_srs_set_from_srsname_tokens_shape o
      { s with is_reverse_axis := false } ':' srsname
    exact Or.inr ⟨false, n, hn⟩
  · split
    · obtain ⟨n, hn⟩ := ows_srs_set_from_srsname_tokens_shape o
        { s with is_reverse_axis := true } ':' srsname
      exact Or.inr ⟨true, n, hn⟩
    · split
      · obtain ⟨n, hn⟩ := ows_srs_set_from_srsname_tokens_shape o
          { s with is_reverse_axis := false } '#' srsname
        exact Or.inr ⟨false, n, hn⟩
      · split
        · obtain ⟨n, hn⟩ := ows_srs_set_from_srsname_tokens_shape o
            { s with is_reverse_axis := false } '/' srsname
          exact Or.inr ⟨false, n, hn⟩
        · exact Or.inl rfl

/-- The resolver `ows_srs_set_from_srid` keeps the invariant, on every table. -/
theorem ows_srs_set_from_srid_unset_has_no_name (o : ows) (s : ows_srs) (srid : Int)
    (hs : unset_has_no_name s) : unset_has_no_name (ows_srs_set_from_srid o s srid).2 := by
  by_cases h1 : srid = -1
  · subst h1
    intro _
    rfl
  · by_cases h2 : (select_by_srid o.pg srid).length ≠ 1
    · rw [ows_srs_set_from_srid_of_not_single o s srid h1 h2]
      exact hs
    · have h3 : (select_by_srid o.pg srid).length = 1 := not_not.1 h2
      intro hsrid
      exfalso
      apply h1
      simp only [ows_srs_set_from_srid, h1, if_false, PQexec_by_srid, PQresultStatus,
        PQntuples, List.length_map, h3, ne_eq, not_true_eq_false, or_self] at hsrid
      split at hsrid <;> exact hsrid

/-- The resolver `ows_srs_set`, called with an authority name without a quote
or a backslash, keeps the invariant on a typed table without a row of
identifier -1. -/
theorem ows_srs_set_unset_has_no_name (o : ows) (c : ows_srs) (auth_name : String)
    (auth_srid : Int) (ht : spatial_ref_sys_typed o.pg) (hrow : no_unset_row o.pg)
    (hplain : sql_plain auth_name = true) (hc : unset_has_no_name c) :
    unset_has_no_name (ows_srs_set o c auth_name auth_srid).2 := by
  by_cases h : (select_by_auth o.pg auth_name auth_srid).length ≠ 1
  · rw [ows_srs_set_of_not_single o c auth_name auth_srid hplain h]
    exact hc
  · obtain ⟨r, hr, hmem, _⟩ := filter_length_one _ o.pg (not_not.1 h)
    have hr' : select_by_auth o.pg auth_name auth_srid = [r] := hr
    rw [ows_srs_set_of_single o c auth_name auth_srid r ht hplain hr']
    intro hsrid
    exact absurd hsrid (hrow r hmem)

/-- The layer scans stop at the first layer that `first_layer_srs` picks. -/
theorem first_layer_srs_cons (pg : List spatial_ref_sys_row) (ln : ows_layer)
    (next : List ows_layer) (layer_name : String) :
    first_layer_srs { pg := pg, layers := ln :: next } layer_name
      = match ln.name, ln.storage with
        | some name, some storage =>
          if strcmp name layer_name = 0 then some storage
          else first_layer_srs { pg := pg, layers := next } layer_name
        | _, _ => first_layer_srs { pg := pg, layers := next } layer_name := by
  unfold first_layer_srs
  rcases ln with ⟨name, storage⟩
  cases name with
  | none => simp [List.find?_cons]
  | some name =>
    cases storage with
    | none => simp [List.find?_cons]
    | some storage =>
      by_cases hn : name = layer_name
      · simp [List.find?_cons, strcmp, hn]
      · simp [List.find?_cons, strcmp, hn]

/-- The loop of `ows_srs_get_from_srid` adds one string for each token. -/
theorem ows_srs_get_from_srid_loop_eq (o : ows) (l srs : List String) :
    ows_srs_get_from_srid_loop o l srs
      = srs ++ l.map (fun value => ows_srs_get_from_a_srid o (atoi value)) := by
  induction l generalizing srs with
  | nil => simp [ows_srs_get_from_srid_loop]
  | cons value next ih =>
    simp only [ows_srs_get_from_srid_loop, list_add, ih, List.map_cons, List.append_assoc,
      List.singleton_append]

/-- A sequence of resolver calls with plain authority names keeps the
invariant on a typed table without a row of identifier -1. -/
theorem run_calls_keeps_unset_has_no_name (o : ows) (ht : spatial_ref_sys_typed o.pg)
    (hrow : no_unset_row o.pg) (calls : List srs_call)
    (hplain : ∀ call ∈ calls, plain_call call) (c : ows_srs)
    (hc : unset_has_no_name c) : unset_has_no_name (run_calls o c calls) := by
  induction calls generalizing c with
  | nil => exact hc
  | cons call calls ih =>
    have hcall : plain_call call := hplain call (List.mem_cons_self _ _)
    apply ih (fun x hx => hplain x (List.mem_cons_of_mem _ hx))
    cases call with
    | set auth_name auth_srid =>
      exact ows_srs_set_unset_has_no_name o c auth_name auth_srid ht hrow hcall hc
    | set_from_srid srid => exact ows_srs_set_from_srid_unset_has_no_name o c srid hc
    | set_from_srsname srsname =>
      show unset_has_no_name (ows_srs_set_from_srsname o c srsname).2
      rcases ows_srs_set_from_srsname_shape o c srsname with h | ⟨rev, srid, h⟩
      · rw [h]
        exact hc
      · rw [h]
        exact ows_srs_set_from_srid_unset_has_no_name o _ srid hc

/-- The identifier query returns the `srid` of the record `first_layer_srs`
picks, and -1 when there is none. -/
theorem ows_srs_get_srid_from_layer_loop_eq (pg : List spatial_ref_sys_row)
    (layers : List ows_layer) (layer_name : String) :
    ows_srs_get_srid_from_layer_loop layer_name layers
      = match first_layer_srs { pg := pg, layers := layers } layer_name with
        | some c => c.srid
        | none => -1 := by
  induction layers with
  | nil => rfl
  | cons ln next ih =>
    rw [first_layer_srs_cons]
    unfold ows_srs_get_srid_from_layer_loop
    split
    · split
      · rfl
      · exact ih
    · exact ih

/-- The units query returns the units of the record `first_layer_srs` picks,
and fails its assertion when there is none. -/
theorem ows_srs_meter_units_loop_eq (pg : List spatial_ref_sys_row)
    (layers : List ows_layer) (layer_name : String) :
    ows_srs_meter_units_loop layer_name layers
      = match first_layer_srs { pg := pg, layers := layers } layer_name with
        | some c => some (!c.is_degree)
        | none => none := by
  induction layers with
  | nil => rfl
  | cons ln next ih =>
    rw [first_layer_srs_cons]
    unfold ows_srs_meter_units_loop
    split
    · split
      · rfl
      · exact ih
    · exact ih

/-- The record `first_layer_srs` picks exists exactly when some layer has the
name and carries a record. -/
theorem first_layer_srs_eq_none_iff (o : ows) (layer_name : String) :
    first_layer_srs o layer_name = none
      ↔ ¬ ∃ ln ∈ o.layers, ln.name = some layer_name ∧ ln.storage.isSome = true := by
  unfold first_layer_srs
  cases hf : o.layers.find?
      (fun ln => decide (ln.name = some layer_name ∧ ln.storage.isSome = true)) with
  | none =>
    simp only [Option.none_bind, true_iff]
    rintro ⟨ln, hmem, hn, hs⟩
    have := List.find?_eq_none.1 hf ln hmem
    simp [hn, hs] at this
  | some ln =>
    have hp := List.find?_some hf
    have hmem := List.mem_of_find?_eq_some hf
    simp only [decide_eq_true_eq] at hp
    simp only [Option.some_bind]
    constructor
    · intro hnone
      rw [hnone] at hp
      simp at hp
    · intro hno
      exact absurd ⟨ln, hmem, hp.1, hp.2⟩ hno

/-! ## The claims -/

/-- C1: for every name made of an entry of the recognized-syntax table, any
text that is empty or ends with the entry's separator (the intermediate
segments) and a non-empty string of decimal digits whose number `N` is an
`int`, `ows_srs_set_from_srsname` is `ows_srs_set_from_srid` called with `N` on
the record whose `is_reverse_axis` has been set to the entry's axis order
(true for the three `urn:` entries, false for the other three). -/
theorem ows_srs_set_from_srsname_recognized (o : ows) (s : ows_srs) (p : String)
    (sep : Char) (rev : Bool) (mid ds : String)
    (hp : (p, sep, rev) ∈ recognized_forms)
    (hmid : mid = "" ∨ mid.data.getLast? = some sep)
    (hne : ds ≠ "") (hds : ∀ c ∈ ds.data, c.isDigit = true)
    (hval : decimal_value ds ≤ 2147483647) :
    ows_srs_set_from_srsname o s (p ++ mid ++ ds)
      = ows_srs_set_from_srid o { s with is_reverse_axis := rev } (decimal_value ds) := by
  rw [ows_srs_set_from_srsname_branch o s p sep rev (p ++ mid ++ ds) (mid.data ++ ds.data) hp
    (by simp only [String.data_append, List.append_assoc])]
  exact ows_srs_set_from_srsname_tokens_digits o _ p sep rev mid ds hp hmid hne hds hval

/-- The seven names of the specification, each resolved like its number 4326. -/
theorem ows_srs_set_from_srsname_recognized_witness :
    ows_srs_set_from_srsname scenario_table ows_srs_init "EPSG:4326"
        = ows_srs_set_from_srid scenario_table
            { ows_srs_init with is_reverse_axis := false } 4326
    ∧ ows_srs_set_from_srsname scenario_table ows_srs_init "urn:ogc:def:crs:EPSG:4326"
        = ows_srs_set_from_srid scenario_table
            { ows_srs_init with is_reverse_axis := true } 4326
    ∧ ows_srs_set_from_srsname scenario_table ows_srs_init "urn:ogc:def:crs:EPSG:6.6:4326"
        = ows_srs_set_from_srid scenario_table
            { ows_srs_init with is_reverse_axis := true } 4326
    ∧ ows_srs_set_from_srsname scenario_table ows_srs_init "urn:x-ogc:def:crs:EPSG:4326"
        = ows_srs_set_from_srid scenario_table
            { ows_srs_init with is_reverse_axis := true } 4326
    ∧ ows_srs_set_from_srsname scenario_table ows_srs_init "urn:EPSG:geographicCRS:4326"
        = ows_srs_set_from_srid scenario_table
            { ows_srs_init with is_reverse_axis := true } 4326
    ∧ ows_srs_set_from_srsname scenario_table ows_srs_init
          "http://www.opengis.net/gml/srs/epsg.xml#4326"
        = ows_srs_set_from_srid scenario_table
            { ows_srs_init with is_reverse_axis := false } 4326
    ∧ ows_srs_set_from_srsname scenario_table ows_srs_init "http://www.epsg.org/6.11.2/4326"
        = ows_srs_set_from_srid scenario_table
            { ows_srs_init with is_reverse_axis := false } 4326 :=
  ⟨ows_srs_set_from_srsname_recognized scenario_table ows_srs_init "EPSG:" ':' false "" "4326"
      (by decide) (by decide) (by decide) (by decide) (by decide),
   ows_srs_set_from_srsname_recognized scenario_table ows_srs_init "urn:ogc:def:crs:EPSG:" ':'
      true "" "4326" (by decide) (by decide) (by decide) (by decide) (by decide),
   ows_srs_set_from_srsname_recognized scenario_table ows_srs_init "urn:ogc:def:crs:EPSG:" ':'
      true "6.6:" "4326" (by decide) (by decide) (by decide) (by decide) (by decide),
   ows_srs_set_from_srsname_recognized scenario_table ows_srs_init "urn:x-ogc:def:crs:EPSG:" ':'
      true "" "4326" (by decide) (by decide) (by decide) (by decide) (by decide),
   ows_srs_set_from_srsname_recognized scenario_table ows_srs_init "urn:EPSG:geographicCRS:" ':'
      true "" "4326" (by decide) (by decide) (by decide) (by decide) (by decide),
   ows_srs_set_from_srsname_recognized scenario_table ows_srs_init
      "http://www.opengis.net/gml/srs/epsg.xml#" '#' false "" "4326"
      (by decide) (by decide) (by decide) (by decide) (by decide),
   ows_srs_set_from_srsname_recognized scenario_table ows_srs_init "http://www.epsg.org/" '/'
      false "6.11.2/" "4326" (by decide) (by decide) (by decide) (by decide) (by decide)⟩

/-- C2: when the lookup `ows_srs_set` makes returns no row or more than one
row (for every authority name, through the result of its query; for a name
without a quote or a backslash, this is the number of table rows of that
authority name and code), or the query of `ows_srs_set_from_srid` for an
identifier other than -1 selects no row or more than one row, the call returns
false and the record is the record before the call, in every field. -/
theorem resolve_not_single_unchanged (o : ows) (c : ows_srs) (auth_name : String)
    (auth_srid srid : Int) :
    (PQntuples (PQexec_by_auth o auth_name auth_srid) ≠ 1 →
        ows_srs_set o c auth_name auth_srid = (false, c))
    ∧ (sql_plain auth_name = true →
        PQntuples (PQexec_by_auth o auth_name auth_srid)
          = (select_by_auth o.pg auth_name auth_srid).length)
    ∧ (sql_plain auth_name = true → (select_by_auth o.pg auth_name auth_srid).length ≠ 1 →
        ows_srs_set o c auth_name auth_srid = (false, c))
    ∧ (srid ≠ -1 → (select_by_srid o.pg srid).length ≠ 1 →
        ows_srs_set_from_srid o c srid = (false, c)) :=
  ⟨fun h => ows_srs_set_of_result_not_single o c auth_name auth_srid (Or.inr h),
   fun hplain => by simp [PQexec_by_auth, hplain, PQntuples],
   ows_srs_set_of_not_single o c auth_name auth_srid,
   ows_srs_set_from_srid_of_not_single o c srid⟩

/-- No row of the scenario table has code or identifier 999999, the duplicate
table has two rows for 4326, and the text built from the name `O'Neil` gets no
row from the server: the calls fail and keep the record. -/
theorem resolve_not_single_unchanged_witness :
    ((select_by_auth scenario_table.pg "EPSG" 999999).length = 0
      ∧ ows_srs_set scenario_table resolved_4326 "EPSG" 999999 = (false, resolved_4326))
    ∧ ((select_by_srid duplicate_table.pg 4326).length = 2
      ∧ ows_srs_set_from_srid duplicate_table resolved_4326 4326 = (false, resolved_4326))
    ∧ (PQntuples (PQexec_by_auth quoted_name_table "O'Neil" 7) = 0
      ∧ ows_srs_set quoted_name_table resolved_4326 "O'Neil" 7 = (false, resolved_4326)) :=
  ⟨⟨by decide,
    (resolve_not_single_unchanged scenario_table resolved_4326 "EPSG" 999999 0).2.2.1
      (by decide) (by decide)⟩,
   ⟨by decide,
    (resolve_not_single_unchanged duplicate_table resolved_4326 "EPSG" 0 4326).2.2.2
      (by decide) (by decide)⟩,
   ⟨by decide,
    (resolve_not_single_unchanged quoted_name_table resolved_4326 "O'Neil" 7 0).1
      (by decide)⟩⟩

/-- C3, as stated, fails: on the scenario table, which has no row of identifier
999999, the `urn:` name makes `ows_srs_set_from_srsname` return false and
leaves `is_reverse_axis` true in a record where it was false. -/
theorem srsname_failure_changes_axis_flag :
    (select_by_srid scenario_table.pg 999999).length = 0
    ∧ (ows_srs_set_from_srsname scenario_table ows_srs_init "urn:ogc:def:crs:EPSG:999999").1
        = false
    ∧ ows_srs_init.is_reverse_axis = false
    ∧ (ows_srs_set_from_srsname scenario_table ows_srs_init
        "urn:ogc:def:crs:EPSG:999999").2.is_reverse_axis = true := by
  decide

/-- C3, amended: when `ows_srs_set_from_srsname` returns false on a name that
starts with an entry of the recognized-syntax table, the record keeps `srid`,
`auth_name`, `auth_srid` and `is_degree`, and its `is_reverse_axis` is the
axis order of that entry: the flag is written before the lookup. -/
theorem srsname_failure_keeps_all_but_axis_flag (o : ows) (s : ows_srs) (p : String)
    (sep : Char) (rev : Bool) (srsname : String)
    (hp : (p, sep, rev) ∈ recognized_forms) (hname : p.data <+: srsname.data)
    (hfalse : (ows_srs_set_from_srsname o s srsname).1 = false) :
    (ows_srs_set_from_srsname o s srsname).2 = { s with is_reverse_axis := rev } := by
  obtain ⟨t, ht⟩ := hname
  rw [ows_srs_set_from_srsname_branch o s p sep rev srsname t hp ht.symm] at hfalse ⊢
  unfold ows_srs_set_from_srsname_tokens at hfalse ⊢
  cases hl : (list_explode sep srsname).getLast? with
  | none => simp only [hl]
  | some value =>
    simp only [hl] at hfalse ⊢
    exact ows_srs_set_from_srid_false o _ _ hfalse

/-- The failing `urn:` name of the scenario leaves the initial record with the
axis flag set. -/
theorem srsname_failure_keeps_all_but_axis_flag_witness :
    (ows_srs_set_from_srsname scenario_table ows_srs_init "urn:ogc:def:crs:EPSG:999999").2
      = { ows_srs_init with is_reverse_axis := true } :=
  srsname_failure_keeps_all_but_axis_flag scenario_table ows_srs_init "urn:ogc:def:crs:EPSG:"
    ':' true "urn:ogc:def:crs:EPSG:999999" (by decide) (by decide) (by decide)

/-- C4 fails on the code: a name whose last token is not a string of digits
is not rejected. `EPSG:-1` returns true and resets a resolved record,
`EPSG:4326x` resolves identifier 4326, and `EPSG:abc` and `EPSG:` look
identifier 0 up in the table. -/
theorem srsname_non_numeric_code_accepted :
    ows_srs_set_from_srsname scenario_table resolved_4326 "EPSG:-1" = (true, ows_srs_init)
    ∧ ows_srs_set_from_srsname scenario_table ows_srs_init "EPSG:4326x"
        = (true, resolved_4326)
    ∧ (∀ o s, ows_srs_set_from_srsname o s "EPSG:abc"
        = ows_srs_set_from_srid o { s with is_reverse_axis := false } 0)
    ∧ (∀ o s, ows_srs_set_from_srsname o s "EPSG:"
        = ows_srs_set_from_srid o { s with is_reverse_axis := false } 0) := by
  refine ⟨by decide, by decide, fun o s => rfl, fun o s => rfl⟩

/-- C5 fails on the code: `ows_srs_set_from_srid` appends the authority name
of the row to the name the record already holds. -/
theorem set_from_srid_appends_auth_name :
    ows_srs_set_from_srid scenario_table resolved_4326 4326
      = (true, { srid := 4326, auth_name := "EPSGEPSG", auth_srid := 4326,
                 is_degree := true, is_reverse_axis := false }) := by
  decide

/-- C6: with identifier -1, `ows_srs_set_from_srid` returns true and leaves
the record of `ows_srs_init` (srid -1, empty authority name, code 0,
`is_degree` true, `is_reverse_axis` false), whatever the record and the
reference table were. -/
theorem set_from_srid_minus_one_resets (o : ows) (s : ows_srs) :
    ows_srs_set_from_srid o s (-1) = (true, ows_srs_init)
    ∧ ows_srs_init = { srid := -1, auth_name := "", auth_srid := 0, is_degree := true,
                       is_reverse_axis := false } :=
  ⟨rfl, rfl⟩

/-- C7, as stated, fails: the row of identifier 32631 has its marker at
position 33 of the text, not at the start, and both resolvers leave a record
that `ows_srs_meter_units` reports as meter units. -/
theorem marker_inside_text_gives_meter_units :
    select_by_auth scenario_table.pg "EPSG" 32631
        = [{ srid := 32631, auth_name := "EPSG", auth_srid := 32631,
             proj4text := "+proj=utm +zone=31 +datum=WGS84 +units=m +no_defs" }]
    ∧ ¬ units_marker.data <+: "+proj=utm +zone=31 +datum=WGS84 +units=m +no_defs".data
    ∧ position "+units=m " "+proj=utm +zone=31 +datum=WGS84 +units=m +no_defs" = 33
    ∧ (ows_srs_set scenario_table ows_srs_init "EPSG" 32631).1 = true
    ∧ ows_srs_meter_units
        (with_layer scenario_table "roads"
          (ows_srs_set scenario_table ows_srs_init "EPSG" 32631).2) "roads" = some true
    ∧ (ows_srs_set_from_srid scenario_table ows_srs_init 32631).1 = true
    ∧ ows_srs_meter_units
        (with_layer scenario_table "roads"
          (ows_srs_set_from_srid scenario_table ows_srs_init 32631).2) "roads" = some true := by
  decide

/-- C7, amended: on a typed table, when the query of `ows_srs_set` for an
authority name without a quote or a backslash, or the query of
`ows_srs_set_from_srid` for an identifier other than -1, selects the one row
`r`, the call succeeds and `ows_srs_meter_units` reports the record as meter
units if and only if the marker `+units=m ` occurs somewhere in the
projection text of `r`. -/
theorem meter_units_iff_marker_occurs (o : ows) (c : ows_srs) (auth_name : String)
    (auth_srid srid : Int) (r : spatial_ref_sys_row) (layer_name : String)
    (ht : spatial_ref_sys_typed o.pg) :
    (sql_plain auth_name = true → select_by_auth o.pg auth_name auth_srid = [r] →
        (ows_srs_set o c auth_name auth_srid).1 = true
        ∧ ows_srs_meter_units
            (with_layer o layer_name (ows_srs_set o c auth_name auth_srid).2) layer_name
          = some (decide (units_marker.data <:+: r.proj4text.data)))
    ∧ (srid ≠ -1 → select_by_srid o.pg srid = [r] →
        (ows_srs_set_from_srid o c srid).1 = true
        ∧ ows_srs_meter_units
            (with_layer o layer_name (ows_srs_set_from_srid o c srid).2) layer_name
          = some (decide (units_marker.data <:+: r.proj4text.data))) := by
  constructor
  · intro hplain h
    rw [ows_srs_meter_units_with_layer,
      ows_srs_set_of_single o c auth_name auth_srid r ht hplain h]
    simp
  · intro hsrid h
    rw [ows_srs_meter_units_with_layer, ows_srs_set_from_srid_of_single o c srid r ht hsrid h]
    simp

/-- The rows 2154 (marker at the start), 32631 (marker inside) and 4326 (no
marker) of the scenario table. -/
theorem meter_units_iff_marker_occurs_witness :
    ows_srs_meter_units
        (with_layer scenario_table "roads"
          (ows_srs_set scenario_table ows_srs_init "EPSG" 2154).2) "roads" = some true
    ∧ ows_srs_meter_units
        (with_layer scenario_table "roads"
          (ows_srs_set_from_srid scenario_table ows_srs_init 32631).2) "roads" = some true
    ∧ ows_srs_meter_units
        (with_layer scenario_table "roads"
          (ows_srs_set scenario_table ows_srs_init "EPSG" 4326).2) "roads" = some false :=
  ⟨((meter_units_iff_marker_occurs scenario_table ows_srs_init "EPSG" 2154 0
      { srid := 2154, auth_name := "EPSG", auth_srid := 2154,
        proj4text := "+units=m +proj=lcc" } "roads" (by decide)).1 (by decide) (by decide)).2,
   ((meter_units_iff_marker_occurs scenario_table ows_srs_init "" 0 32631
      { srid := 32631, auth_name := "EPSG", auth_srid := 32631,
        proj4text := "+proj=utm +zone=31 +datum=WGS84 +units=m +no_defs" } "roads"
      (by decide)).2 (by decide) (by decide)).2,
   ((meter_units_iff_marker_occurs scenario_table ows_srs_init "EPSG" 4326 0
      { srid := 4326, auth_name := "EPSG", auth_srid := 4326,
        proj4text := "+proj=longlat +datum=WGS84 +no_defs" } "roads" (by decide)).1
      (by decide) (by decide)).2⟩

/-- C8, as stated, fails: the row of identifier 900913 of the foreign table
is named `spatialreferencing.org` with code 6. `EPSG:900913` resolves to that
row, so the record has neither authority `EPSG` nor code 900913, while
`ows_srs_set` with `EPSG` and 900913 finds no row. -/
theorem srsname_resolves_foreign_authority :
    ows_srs_set_from_srsname foreign_table ows_srs_init "EPSG:900913"
        = (true, { srid := 900913, auth_name := "spatialreferencing.org", auth_srid := 6,
                   is_degree := false, is_reverse_axis := false })
    ∧ ows_srs_set foreign_table ows_srs_init "EPSG" 900913 = (false, ows_srs_init) := by
  decide

/-- C8, amended: for a recognized name with code `C` (as in C1) on a typed
table whose query by identifier `C` selects the one row `r`,
`ows_srs_set_from_srsname` succeeds with `srid` `C` and with the authority code
and the units of `r`, and with the authority name of `r` when the record had
an empty one. When `r` is also the one row that the query for authority
`EPSG` and code `C` selects, `ows_srs_set` with `EPSG` and `C` succeeds and the
two records agree on `srid`, `auth_srid` and `is_degree`, and on `auth_name`
when the record had an empty one. -/
theorem srsname_resolves_identifier (o : ows) (s : ows_srs) (p : String) (sep : Char)
    (rev : Bool) (mid ds : String) (r : spatial_ref_sys_row)
    (hp : (p, sep, rev) ∈ recognized_forms)
    (hmid : mid = "" ∨ mid.data.getLast? = some sep)
    (hne : ds ≠ "") (hds : ∀ c ∈ ds.data, c.isDigit = true)
    (hval : decimal_value ds ≤ 2147483647)
    (ht : spatial_ref_sys_typed o.pg)
    (hrow : select_by_srid o.pg (decimal_value ds) = [r]) :
    ((ows_srs_set_from_srsname o s (p ++ mid ++ ds)).1 = true
      ∧ (ows_srs_set_from_srsname o s (p ++ mid ++ ds)).2.srid = decimal_value ds
      ∧ (ows_srs_set_from_srsname o s (p ++ mid ++ ds)).2.auth_srid = r.auth_srid
      ∧ (ows_srs_set_from_srsname o s (p ++ mid ++ ds)).2.is_degree
          = !decide (units_marker.data <:+: r.proj4text.data)
      ∧ (s.auth_name = "" →
          (ows_srs_set_from_srsname o s (p ++ mid ++ ds)).2.auth_name = r.auth_name))
    ∧ (select_by_auth o.pg "EPSG" (decimal_value ds) = [r] →
        (ows_srs_set o s "EPSG" (decimal_value ds)).1 = true
        ∧ (ows_srs_set_from_srsname o s (p ++ mid ++ ds)).2.srid
            = (ows_srs_set o s "EPSG" (decimal_value ds)).2.srid
        ∧ (ows_srs_set_from_srsname o s (p ++ mid ++ ds)).2.auth_srid
            = (ows_srs_set o s "EPSG" (decimal_value ds)).2.auth_srid
        ∧ (ows_srs_set_from_srsname o s (p ++ mid ++ ds)).2.is_degree
            = (ows_srs_set o s "EPSG" (decimal_value ds)).2.is_degree
        ∧ (s.auth_name = "" →
            (ows_srs_set_from_srsname o s (p ++ mid ++ ds)).2.auth_name
              = (ows_srs_set o s "EPSG" (decimal_value ds)).2.auth_name)) := by
  have hC : (decimal_value ds : Int) ≠ -1 := by omega
  rw [ows_srs_set_from_srsname_branch o s p sep rev (p ++ mid ++ ds) (mid.data ++ ds.data) hp
    (by simp only [String.data_append, List.append_assoc]),
    ows_srs_set_from_srsname_tokens_digits o _ p sep rev mid ds hp hmid hne hds hval,
    ows_srs_set_from_srid_of_single o _ _ r ht hC hrow]
  refine ⟨⟨rfl, rfl, rfl, rfl, fun h => ?_⟩, fun hauth => ?_⟩
  · show s.auth_name ++ r.auth_name = r.auth_name
    rw [h]
    exact String.empty_append _
  · have hmem := mem_of_select_by_auth (hauth ▸ List.mem_singleton_self r)
    have hmem' := mem_of_select_by_srid (hrow ▸ List.mem_singleton_self r)
    rw [ows_srs_set_of_single o s "EPSG" _ r ht (by decide) hauth]
    refine ⟨rfl, hmem'.2.symm, hmem.2.2, rfl, fun h => ?_⟩
    show s.auth_name ++ r.auth_name = "EPSG"
    rw [h, hmem.2.1]
    exact String.empty_append _

/-- The `urn:` name with a version segment for 2154 on the scenario table and
the initial record: the row of identifier 2154 is the row of `EPSG` and 2154. -/
theorem srsname_resolves_identifier_witness :
    ows_srs_set_from_srsname scenario_table ows_srs_init
        ("urn:ogc:def:crs:EPSG:" ++ "6.6:" ++ "2154")
      = (true, { srid := 2154, auth_name := "EPSG", auth_srid := 2154, is_degree := false,
                 is_reverse_axis := true })
    ∧ (ows_srs_set_from_srsname scenario_table ows_srs_init
        ("urn:ogc:def:crs:EPSG:" ++ "6.6:" ++ "2154")).2.auth_name
      = (ows_srs_set scenario_table ows_srs_init "EPSG"
          (decimal_value "2154")).2.auth_name :=
  ⟨by decide,
   ((srsname_resolves_identifier scenario_table ows_srs_init "urn:ogc:def:crs:EPSG:" ':' true
      "6.6:" "2154"
      { srid := 2154, auth_name := "EPSG", auth_srid := 2154,
        proj4text := "+units=m +proj=lcc" }
      (by decide) (by decide) (by decide) (by decide) (by decide) (by decide) (by decide)).2
      (by decide)).2.2.2.2 rfl⟩

/-- C9: on a typed table keyed by `srid` that has exactly one row of authority
`EPSG` and code `C`, `ows_srs_set` with `EPSG` and `C` succeeds, and
`ows_srs_get_from_a_srid` on the `srid` of the record returns `EPSG:` followed
by the decimal text of `C`. -/
theorem ows_srs_set_get_round_trip (o : ows) (c : ows_srs) (C : Int)
    (ht : spatial_ref_sys_typed o.pg)
    (hkey : (o.pg.map (fun r => r.srid)).Nodup)
    (hone : (select_by_auth o.pg "EPSG" C).length = 1) :
    (ows_srs_set o c "EPSG" C).1 = true
    ∧ ows_srs_get_from_a_srid o (ows_srs_set o c "EPSG" C).2.srid = "EPSG:" ++ int_text C := by
  obtain ⟨r, hr, hmem, _⟩ := filter_length_one _ o.pg hone
  have hr' : select_by_auth o.pg "EPSG" C = [r] := hr
  have hrow := mem_of_select_by_auth (hr' ▸ List.mem_singleton_self r)
  rw [ows_srs_set_of_single o c "EPSG" C r ht (by decide) hr']
  refine ⟨rfl, ?_⟩
  simp only [ows_srs_get_from_a_srid, PQexec_srs, PQresultStatus, PQntuples, PQgetvalue,
    select_by_srid_of_key o.pg hkey r hmem, List.map_cons, List.map_nil,
    List.length_singleton, ne_eq, not_true_eq_false, or_self, if_false, List.getD_cons_zero,
    buffer_add_str, buffer_init, hrow.2.1, hrow.2.2]
  rfl

/-- The scenario table is keyed by `srid` and has one row for `EPSG` and 4326. -/
theorem ows_srs_set_get_round_trip_witness :
    (ows_srs_set scenario_table ows_srs_init "EPSG" 4326).1 = true
    ∧ ows_srs_get_from_a_srid scenario_table
        (ows_srs_set scenario_table ows_srs_init "EPSG" 4326).2.srid = "EPSG:4326" :=
  ows_srs_set_get_round_trip scenario_table ows_srs_init 4326 (by decide) (by decide)
    (by decide)

/-- C10, as stated, fails: the one row of the table has the authority name
`O'Neil` and code 7, so exactly one row matches both, but the name is pasted
unescaped, the text is no SQL statement, and `ows_srs_set` returns false with
the record as it was. -/
theorem ows_srs_set_quoted_name_fails :
    select_by_auth quoted_name_table.pg "O'Neil" 7
        = [{ srid := 7, auth_name := "O'Neil", auth_srid := 7,
             proj4text := "+proj=longlat +datum=WGS84 +no_defs" }]
    ∧ sql_by_auth "O'Neil" 7
        = "SELECT srid, position('+units=m ' in proj4text) FROM spatial_ref_sys WHERE auth_name='O'Neil' AND auth_srid=7"
    ∧ ows_srs_set quoted_name_table ows_srs_init "O'Neil" 7 = (false, ows_srs_init) := by
  decide

/-- C10, amended: on a typed table, when the authority name holds no quote
and no backslash and the query for the name and the code selects the one row
`r`, `ows_srs_set` returns true and leaves the record with the `srid` of `r`,
with the given authority name in place of the earlier one, and with the given
code. -/
theorem ows_srs_set_single_row (o : ows) (c : ows_srs) (auth_name : String) (auth_srid : Int)
    (r : spatial_ref_sys_row) (ht : spatial_ref_sys_typed o.pg)
    (hplain : sql_plain auth_name = true)
    (h : select_by_auth o.pg auth_name auth_srid = [r]) :
    (ows_srs_set o c auth_name auth_srid).1 = true
    ∧ (ows_srs_set o c auth_name auth_srid).2.srid = r.srid
    ∧ (ows_srs_set o c auth_name auth_srid).2.auth_name = auth_name
    ∧ (ows_srs_set o c auth_name auth_srid).2.auth_srid = auth_srid := by
  rw [ows_srs_set_of_single o c auth_name auth_srid r ht hplain h]
  exact ⟨rfl, rfl, rfl, rfl⟩

/-- A record resolved as 4326 is resolved again as `EPSG` and 2154: the name is
replaced, not extended. -/
theorem ows_srs_set_single_row_witness :
    (ows_srs_set scenario_table resolved_4326 "EPSG" 2154).1 = true
    ∧ (ows_srs_set scenario_table resolved_4326 "EPSG" 2154).2.srid = 2154
    ∧ (ows_srs_set scenario_table resolved_4326 "EPSG" 2154).2.auth_name = "EPSG"
    ∧ (ows_srs_set scenario_table resolved_4326 "EPSG" 2154).2.auth_srid = 2154 :=
  ows_srs_set_single_row scenario_table resolved_4326 "EPSG" 2154
    { srid := 2154, auth_name := "EPSG", auth_srid := 2154, proj4text := "+units=m +proj=lcc" }
    (by decide) (by decide) (by decide)

/-- C11: a name that starts with none of the six entries of the
recognized-syntax table makes `ows_srs_set_from_srsname` return false with the
record untouched in every field, whatever the context holds (nothing is split
or looked up). -/
theorem ows_srs_set_from_srsname_unrecognized (o : ows) (s : ows_srs) (srsname : String)
    (h : ∀ e ∈ recognized_forms, ¬ e.1.data <+: srsname.data) :
    ows_srs_set_from_srsname o s srsname = (false, s) := by
  have h1 := h ("EPSG:", ':', false) (by decide)
  have h2 := h ("urn:ogc:def:crs:EPSG:", ':', true) (by decide)
  have h3 := h ("urn:x-ogc:def:crs:EPSG:", ':', true) (by decide)
  have h4 := h ("urn:EPSG:geographicCRS:", ':', true) (by decide)
  have h5 := h ("http://www.opengis.net/gml/srs/epsg.xml#", '#', false) (by decide)
  have h6 := h ("http://www.epsg.org/", '/', false) (by decide)
  unfold ows_srs_set_from_srsname
  rw [if_neg (fun e => h1 (pfx_of_strncmp_eq_zero _ _ 5 (by decide) e)),
    if_neg (fun e => e.elim (fun e => h2 (pfx_of_strncmp_eq_zero _ _ 21 (by decide) e))
      (fun e => e.elim (fun e => h3 (pfx_of_strncmp_eq_zero _ _ 23 (by decide) e))
        (fun e => h4 (pfx_of_strncmp_eq_zero _ _ 23 (by decide) e)))),
    if_neg (fun e => h5 (pfx_of_strncmp_eq_zero _ _ 40 (by decide) e)),
    if_neg (fun e => h6 (pfx_of_strncmp_eq_zero _ _ 20 (by decide) e))]

/-- The names `CRS:84`, `epsg:4326` and the empty name start with no entry of
the table: a resolved record is returned as it was. -/
theorem ows_srs_set_from_srsname_unrecognized_witness :
    ows_srs_set_from_srsname scenario_table resolved_4326 "CRS:84" = (false, resolved_4326)
    ∧ ows_srs_set_from_srsname scenario_table resolved_4326 "epsg:4326"
        = (false, resolved_4326)
    ∧ ows_srs_set_from_srsname scenario_table resolved_4326 "" = (false, resolved_4326) :=
  ⟨ows_srs_set_from_srsname_unrecognized scenario_table resolved_4326 "CRS:84" (by decide),
   ows_srs_set_from_srsname_unrecognized scenario_table resolved_4326 "epsg:4326" (by decide),
   ows_srs_set_from_srsname_unrecognized scenario_table resolved_4326 "" (by decide)⟩

/-- C12, as stated, fails: the scenario table has no row of identifier -1, and
`ows_srs_set` called with the authority name `union_name` gets the one row
(-1, 0) from the server; it returns true and leaves the initial record with
`srid` -1 and that name as authority name. -/
theorem set_with_union_name_breaks_invariant :
    no_unset_row union_server.pg
    ∧ sql_by_auth union_name 4326
        = "SELECT srid, position('+units=m ' in proj4text) FROM spatial_ref_sys WHERE auth_name='' UNION SELECT -1, 0 --' AND auth_srid=4326"
    ∧ ows_srs_set union_server ows_srs_init union_name 4326
        = (true, { srid := -1, auth_name := union_name, auth_srid := 4326, is_degree := true,
                   is_reverse_axis := false })
    ∧ ¬ unset_has_no_name
        (run_calls union_server ows_srs_init [srs_call.set union_name 4326]) := by
  decide

/-- C12, amended: on a typed reference table that has no row of identifier
-1, every record reached from the record of `ows_srs_init` by a sequence of
`ows_srs_set`, `ows_srs_set_from_srid` and `ows_srs_set_from_srsname` calls,
successful or failing, in which every `ows_srs_set` call has an authority name
without a quote or a backslash, has an empty authority name when its `srid` is
-1. -/
theorem reachable_unset_has_no_name (o : ows) (calls : List srs_call)
    (ht : spatial_ref_sys_typed o.pg) (hrow : no_unset_row o.pg)
    (hplain : ∀ call ∈ calls, plain_call call) :
    unset_has_no_name (run_calls o ows_srs_init calls) :=
  run_calls_keeps_unset_has_no_name o ht hrow calls hplain ows_srs_init (fun _ => rfl)

/-- A sequence on the scenario table that resolves, fails, resolves again and
ends with a reset through the name `EPSG:-1`. -/
theorem reachable_unset_has_no_name_witness :
    (run_calls scenario_table ows_srs_init
        [srs_call.set "EPSG" 2154, srs_call.set_from_srid 999999,
         srs_call.set_from_srsname "urn:ogc:def:crs:EPSG:4326",
         srs_call.set_from_srsname "EPSG:-1"]) = ows_srs_init
    ∧ unset_has_no_name
        (run_calls scenario_table ows_srs_init
          [srs_call.set "EPSG" 2154, srs_call.set_from_srid 999999,
           srs_call.set_from_srsname "urn:ogc:def:crs:EPSG:4326",
           srs_call.set_from_srsname "EPSG:-1"]) :=
  ⟨by decide,
   reachable_unset_has_no_name scenario_table
     [srs_call.set "EPSG" 2154, srs_call.set_from_srid 999999,
      srs_call.set_from_srsname "urn:ogc:def:crs:EPSG:4326",
      srs_call.set_from_srsname "EPSG:-1"] (by decide) (by decide) (by decide)⟩

/-- C13: `ows_srs_get_from_a_srid` returns the authority name, a colon and the
decimal text of the authority code of the row when the query by identifier
selects exactly one row, and the empty string when it selects no row or more
than one. -/
theorem ows_srs_get_from_a_srid_result (o : ows) (srid : Int) :
    (∀ r, select_by_srid o.pg srid = [r] →
        ows_srs_get_from_a_srid o srid = r.auth_name ++ ":" ++ int_text r.auth_srid)
    ∧ ((select_by_srid o.pg srid).length ≠ 1 → ows_srs_get_from_a_srid o srid = "") := by
  constructor
  · intro r h
    simp only [ows_srs_get_from_a_srid, PQexec_srs, PQresultStatus, PQntuples, PQgetvalue, h,
      List.map_cons, List.map_nil, List.length_singleton, ne_eq, not_true_eq_false, or_self,
      if_false, List.getD_cons_zero, buffer_add_str, buffer_init]
    exact String.empty_append _
  · intro h
    simp [ows_srs_get_from_a_srid, PQexec_srs, PQresultStatus, PQntuples, h, buffer_init]

/-- One row for 32631 in the scenario table, none for 999999, two for 4326 in
the duplicate table. -/
theorem ows_srs_get_from_a_srid_result_witness :
    ows_srs_get_from_a_srid scenario_table 32631 = "EPSG:32631"
    ∧ ows_srs_get_from_a_srid scenario_table 999999 = ""
    ∧ ows_srs_get_from_a_srid duplicate_table 4326 = "" :=
  ⟨(ows_srs_get_from_a_srid_result scenario_table 32631).1
      { srid := 32631, auth_name := "EPSG", auth_srid := 32631,
        proj4text := "+proj=utm +zone=31 +datum=WGS84 +units=m +no_defs" } (by decide),
   (ows_srs_get_from_a_srid_result scenario_table 999999).2 (by decide),
   (ows_srs_get_from_a_srid_result duplicate_table 4326).2 (by decide)⟩

/-- C14: `ows_srs_get_from_srid` returns, for every list of tokens, the list
of the results of `ows_srs_get_from_a_srid` on `atoi` of each token, in the
same order and of the same length; a token whose identifier selects no row or
several rows gives the empty string at its position. -/
theorem ows_srs_get_from_srid_result (o : ows) (l : List String) :
    ows_srs_get_from_srid o l = l.map (fun value => ows_srs_get_from_a_srid o (atoi value))
    ∧ (ows_srs_get_from_srid o l).length = l.length
    ∧ ∀ (i : Nat) (value : String), l[i]? = some value →
        (ows_srs_get_from_srid o l)[i]? = some (ows_srs_get_from_a_srid o (atoi value))
        ∧ ((select_by_srid o.pg (atoi value)).length ≠ 1 →
            (ows_srs_get_from_srid o l)[i]? = some "") := by
  have hmap : ows_srs_get_from_srid o l
      = l.map (fun value => ows_srs_get_from_a_srid o (atoi value)) := by
    unfold ows_srs_get_from_srid
    cases l with
    | nil => rfl
    | cons value next =>
      simp only [List.length_cons, Nat.succ_ne_zero, if_false, list_init,
        ows_srs_get_from_srid_loop_eq, List.nil_append]
  refine ⟨hmap, by rw [hmap, List.length_map], fun i value hi => ?_⟩
  have hget : (ows_srs_get_from_srid o l)[i]?
      = some (ows_srs_get_from_a_srid o (atoi value)) := by
    rw [hmap, List.getElem?_map, hi]
    rfl
  refine ⟨hget, fun hne => ?_⟩
  rw [hget]
  congr 1
  simp [ows_srs_get_from_a_srid, PQexec_srs, PQresultStatus, PQntuples, hne, buffer_init]

/-- Three tokens on the scenario table, the middle one without a row. -/
theorem ows_srs_get_from_srid_result_witness :
    ows_srs_get_from_srid scenario_table ["4326", "999999", "2154"]
        = ["EPSG:4326", "", "EPSG:2154"]
    ∧ (ows_srs_get_from_srid scenario_table ["4326", "999999", "2154"])[1]? = some "" :=
  ⟨by decide,
   ((ows_srs_get_from_srid_result scenario_table ["4326", "999999", "2154"]).2.2 1 "999999"
      (by decide)).2 (by decide)⟩

/-- C15: `ows_srs_get_srid_from_layer` returns the `srid` of the record of the
first layer, in registry order, that has the given name and carries an SRS
record; it returns -1 when there is no such layer, and it returns -1 exactly
when there is no such layer or the record of that first layer has `srid` -1.
The function is total: it returns on every registry. -/
theorem ows_srs_get_srid_from_layer_result (o : ows) (layer_name : String) :
    (∀ c, first_layer_srs o layer_name = some c →
        ows_srs_get_srid_from_layer o layer_name = c.srid)
    ∧ (first_layer_srs o layer_name = none → ows_srs_get_srid_from_layer o layer_name = -1)
    ∧ (ows_srs_get_srid_from_layer o layer_name = -1
        ↔ ((¬ ∃ ln ∈ o.layers, ln.name = some layer_name ∧ ln.storage.isSome = true)
            ∨ ∃ c, first_layer_srs o layer_name = some c ∧ c.srid = -1)) := by
  have heq : ows_srs_get_srid_from_layer o layer_name
      = match first_layer_srs o layer_name with
        | some c => c.srid
        | none => -1 := ows_srs_get_srid_from_layer_loop_eq o.pg o.layers layer_name
  have hnone := first_layer_srs_eq_none_iff o layer_name
  cases hf : first_layer_srs o layer_name with
  | none =>
    rw [hf] at heq hnone
    exact ⟨fun c hc => (by cases hc), fun _ => heq,
      ⟨fun _ => Or.inl (hnone.1 rfl), fun _ => heq⟩⟩
  | some c =>
    rw [hf] at heq hnone
    refine ⟨fun c' hc' => ?_, fun h => (by cases h),
      ⟨fun h => Or.inr ⟨c, rfl, ?_⟩, fun h => ?_⟩⟩
    · cases hc'
      exact heq
    · exact heq.symm.trans h
    · rcases h with h | ⟨c', hc', hs⟩
      · exact absurd (hnone.2 h) (by simp)
      · cases hc'
        rw [heq]
        exact hs

/-- On the scenario registry: the first `roads` layer with a record has `srid`
2154, no layer is named `lakes`, and the record of `native` is unset. -/
theorem ows_srs_get_srid_from_layer_result_witness :
    ows_srs_get_srid_from_layer scenario_layers "roads" = 2154
    ∧ ows_srs_get_srid_from_layer scenario_layers "lakes" = -1
    ∧ ows_srs_get_srid_from_layer scenario_layers "native" = -1 :=
  ⟨(ows_srs_get_srid_from_layer_result scenario_layers "roads").1
      { srid := 2154, auth_name := "EPSG", auth_srid := 2154, is_degree := false,
        is_reverse_axis := false } (by decide),
   (ows_srs_get_srid_from_layer_result scenario_layers "lakes").2.1 (by decide),
   (ows_srs_get_srid_from_layer_result scenario_layers "native").2.2.2
      (Or.inr ⟨ows_srs_init, by decide, by decide⟩)⟩

/-- C16: when the registry has a layer of the given name that carries an SRS
record, `ows_srs_meter_units` does not reach its `assert(0)` and returns true
exactly when the record of the first such layer is not in degree units; when
the registry has no such layer, the `assert(0)` is reached. -/
theorem ows_srs_meter_units_result (o : ows) (layer_name : String) :
    ((∃ ln ∈ o.layers, ln.name = some layer_name ∧ ln.storage.isSome = true) →
        ∃ c, first_layer_srs o layer_name = some c
          ∧ ows_srs_meter_units o layer_name = some (!c.is_degree))
    ∧ ((¬ ∃ ln ∈ o.layers, ln.name = some layer_name ∧ ln.storage.isSome = true) →
        ows_srs_meter_units o layer_name = none) := by
  have heq : ows_srs_meter_units o layer_name
      = match first_layer_srs o layer_name with
        | some c => some (!c.is_degree)
        | none => none := ows_srs_meter_units_loop_eq o.pg o.layers layer_name
  have hnone := first_layer_srs_eq_none_iff o layer_name
  cases hf : first_layer_srs o layer_name with
  | none =>
    rw [hf] at heq hnone
    exact ⟨fun h => absurd h (hnone.1 rfl), fun _ => heq⟩
  | some c =>
    rw [hf] at heq hnone
    exact ⟨fun _ => ⟨c, rfl, heq⟩, fun h => absurd (hnone.2 h) (by simp)⟩

/-- On the scenario registry: the first `roads` layer with a record is in
meter units, `rivers` is in degree units, and no layer is named `lakes`. -/
theorem ows_srs_meter_units_result_witness :
    ows_srs_meter_units scenario_layers "roads" = some true
    ∧ ows_srs_meter_units scenario_layers "rivers" = some false
    ∧ ows_srs_meter_units scenario_layers "lakes" = none :=
  ⟨by decide, by decide,
   (ows_srs_meter_units_result scenario_layers "lakes").2 (by decide)⟩

/-- C17: on every reference table without a row of identifier 999999,
`ows_srs_set_from_srsname` with `EPSG:999999` on the record of `ows_srs_init`
returns false and leaves that record, whose `srid` is -1. -/
theorem ows_srs_set_from_srsname_unknown_code (o : ows)
    (h : ∀ r ∈ o.pg, r.srid ≠ 999999) :
    ows_srs_set_from_srsname o ows_srs_init "EPSG:999999" = (false, ows_srs_init)
    ∧ (ows_srs_set_from_srsname o ows_srs_init "EPSG:999999").2.srid = -1 := by
  have hcall : ows_srs_set_from_srsname o ows_srs_init "EPSG:999999"
      = ows_srs_set_from_srid o ows_srs_init 999999 := rfl
  have hsel : (select_by_srid o.pg 999999).length ≠ 1 := by
    have : select_by_srid o.pg 999999 = [] := by
      unfold select_by_srid
      rw [List.filter_eq_nil_iff]
      intro r hr
      simpa using h r hr
    rw [this]
    decide
  rw [hcall, ows_srs_set_from_srid_of_not_single o ows_srs_init 999999 (by decide) hsel]
  exact ⟨rfl, rfl⟩

/-- The scenario table has no row of identifier 999999. -/
theorem ows_srs_set_from_srsname_unknown_code_witness :
    ows_srs_set_from_srsname scenario_table ows_srs_init "EPSG:999999" = (false, ows_srs_init)
    ∧ (ows_srs_set_from_srsname scenario_table ows_srs_init "EPSG:999999").2.srid = -1 :=
  ows_srs_set_from_srsname_unknown_code scenario_table (by decide)

/-- C18: `ows_srs_set`, and `ows_srs_set_from_srid` with an identifier other
than -1, leave `is_reverse_axis` as it was, whether they succeed or fail; with
identifier -1 `ows_srs_set_from_srid` writes false. -/
theorem resolvers_keep_axis_flag (o : ows) (c : ows_srs) (auth_name : String)
    (auth_srid srid : Int) :
    (ows_srs_set o c auth_name auth_srid).2.is_reverse_axis = c.is_reverse_axis
    ∧ (srid ≠ -1 → (ows_srs_set_from_srid o c srid).2.is_reverse_axis = c.is_reverse_axis)
    ∧ (ows_srs_set_from_srid o c (-1)).2.is_reverse_axis = false := by
  refine ⟨?_, fun hsrid => ?_, rfl⟩
  · unfold ows_srs_set
    simp only []
    split
    · rfl
    · split <;> rfl
  · unfold ows_srs_set_from_srid
    simp only [hsrid, if_false]
    split
    · rfl
    · split <;> rfl

/-- A record whose flag a `urn:` name set to true keeps it true when it is
resolved again by authority and code, and by identifier, successfully or not. -/
theorem resolvers_keep_axis_flag_witness :
    (ows_srs_set_from_srsname scenario_table ows_srs_init
        "urn:ogc:def:crs:EPSG:4326").2.is_reverse_axis = true
    ∧ (ows_srs_set scenario_table
        (ows_srs_set_from_srsname scenario_table ows_srs_init "urn:ogc:def:crs:EPSG:4326").2
        "EPSG" 2154).2.is_reverse_axis = true
    ∧ (ows_srs_set_from_srid scenario_table
        (ows_srs_set_from_srsname scenario_table ows_srs_init "urn:ogc:def:crs:EPSG:4326").2
        999999).2.is_reverse_axis = true :=
  ⟨by decide,
   (resolvers_keep_axis_flag scenario_table
      (ows_srs_set_from_srsname scenario_table ows_srs_init "urn:ogc:def:crs:EPSG:4326").2
      "EPSG" 2154 0).1.trans (by decide),
   ((resolvers_keep_axis_flag scenario_table
      (ows_srs_set_from_srsname scenario_table ows_srs_init "urn:ogc:def:crs:EPSG:4326").2
      "" 0 999999).2.1 (by decide)).trans (by decide)⟩

end TinyOWS
